import Mathlib

/-!
Shallow embedding of the Procura BOM-processing core: the matching tools
(`backend/tools/search_tools.py`), the grouping tool
(`backend/tools/po_tools.py`) and the LangGraph orchestrator
(`backend/agents/orchestrator.py`), together with proofs of the behavioural
properties stated for them.

Numbers that the Python source holds as floats or Decimals are modelled as
rationals; database rows are lists of records; the external Store, Parser and
embedding capabilities are parameters.  Python truthiness (`if x:` on `None`,
`""`, `0`) is modelled explicitly wherever the source relies on it.
-/

namespace Procura

/-! ### String helpers (Python `str.strip/upper/replace`, `in`) -/

/-- Python whitespace characters recognised by `str.strip()`. -/
def isPyWs (c : Char) : Bool :=
  c == ' ' || c == '\t' || c == '\n' || c == '\r' || c == '\x0b' || c == '\x0c'

/-- Python `str.strip()`: drop leading and trailing whitespace. -/
def pyStrip (l : List Char) : List Char :=
  ((l.dropWhile isPyWs).reverse.dropWhile isPyWs).reverse

/-- Normalisation used by `search_supplier_catalog_impl`
(`search_tools.py:35`): `part_number.strip().upper().replace("-", "").replace(" ", "")`. -/
def normalizePN (s : String) : String :=
  String.mk (((pyStrip s.toList).map Char.toUpper).filter (fun c => !(c == '-' || c == ' ')))

/-- Python `needle in hay` on strings: substring containment
(the empty string is contained in everything). -/
def strIn (needle hay : String) : Bool :=
  decide (needle.toList <:+: hay.toList)

/-- Python truthiness of an optional string: `None` and `""` are falsy. -/
def truthyStr : Option String → Bool
  | none => false
  | some s => !(s == "")

/-- Python `a or b` on two optional strings (used for the review title). -/
def pyOrStr (a b : Option String) : Option String :=
  if truthyStr a then a else b

/-- How an f-string renders an optional string (`None` renders as `"None"`). -/
def fmtOptStr : Option String → String
  | none => "None"
  | some s => s

/-! ### Python number formatting (`f"{x:.0%}"`) -/

/-- Python `round` to the nearest integer, ties to even (bankers' rounding),
as used by the `:.0%` format specifier after scaling by 100. -/
def pyRoundHalfEven (q : ℚ) : ℤ :=
  let f := ⌊q⌋
  let r := q - f
  if r < 1/2 then f else if 1/2 < r then f + 1 else if f % 2 = 0 then f else f + 1

/-- Python `f"{q:.0%}"`: scale by 100, round to an integer, append `%`. -/
def formatPct (q : ℚ) : String :=
  toString (pyRoundHalfEven (q * 100)) ++ "%"

/-- The review reason built at `orchestrator.py:233`:
`f"Low confidence match ({confidence:.0%})"`. -/
def lowConfReason (confidence : ℚ) : String :=
  "Low confidence match (" ++ formatPct confidence ++ ")"

/-! ### Configuration (`backend/config.py`) -/

/-- Default `Settings.match_confidence_threshold` (`config.py:73`). -/
def match_confidence_threshold : ℚ := 0.8

/-- Default `top_k` of `semantic_part_search_impl` (`search_tools.py:110`). -/
def semanticTopK : ℕ := 5

/-- Default `min_similarity` of `semantic_part_search_impl` (`search_tools.py:111`). -/
def semanticMinSimilarity : ℚ := 0.5

/-! ### Catalog rows and candidates (`backend/tools/search_tools.py`) -/

/-- One row of the joined `SupplierPart × Supplier × Part` catalog query
(`search_tools.py:38-45`).  `spId` is the `SupplierPart` primary key. -/
structure CatalogRow where
  spId : ℕ
  supplierId : ℕ
  supplierName : String
  supplierCode : String
  supplierStatus : String
  supplierOrgId : ℕ
  supplierLeadTimeDays : Option ℕ
  spLeadTimeDays : Option ℕ
  partId : ℕ
  partNumber : Option String
  supplierPartNumber : Option String
  partDescription : Option String
  unitPrice : Option ℚ
  minOrderQty : Option ℕ
  isPreferred : Bool
deriving DecidableEq, Repr

/-- One match dictionary as built by both search tools. -/
structure Candidate where
  supplierId : ℕ
  supplierName : String
  supplierCode : String
  supplierPartId : ℕ
  partId : ℕ
  partNumber : Option String
  supplierPartNumber : Option String
  description : Option String
  unitPrice : Option ℚ
  leadTimeDays : Option ℕ
  minOrderQty : Option ℕ
  isPreferred : Bool
  confidence : ℚ
  matchMethod : String
deriving DecidableEq, Repr

/-- Python `float(sp.unit_price) if sp.unit_price else None`: a missing or
zero Decimal becomes `None`. -/
def pyPrice : Option ℚ → Option ℚ
  | none => none
  | some q => if q == 0 then none else some q

/-- Python `sp.lead_time_days or supplier.lead_time_days` (0 and `None` falsy). -/
def pyOrLead : Option ℕ → Option ℕ → Option ℕ
  | none, b => b
  | some n, b => if n == 0 then b else some n

/-- The candidate dictionary built from a catalog row
(`search_tools.py:56-71` / `73-88`). -/
def rowCandidate (confidence : ℚ) (matchMethod : String) (r : CatalogRow) : Candidate :=
  { supplierId := r.supplierId
    supplierName := r.supplierName
    supplierCode := r.supplierCode
    supplierPartId := r.spId
    partId := r.partId
    partNumber := r.partNumber
    supplierPartNumber := r.supplierPartNumber
    description := r.partDescription
    unitPrice := pyPrice r.unitPrice
    leadTimeDays := pyOrLead r.spLeadTimeDays r.supplierLeadTimeDays
    minOrderQty := r.minOrderQty
    isPreferred := r.isPreferred
    confidence := confidence
    matchMethod := matchMethod }

/-! ### The sort key (`search_tools.py:92-96` and `181-185`)

Both search tools sort with
`key=lambda x: (-x["confidence"], -int(x["is_preferred"]), x["unit_price"] or 9999999)`.
-/

/-- Python `int(is_preferred)`. -/
def prefInt (b : Bool) : ℤ := if b then 1 else 0

/-- Python `x["unit_price"] or 9999999`: `None` and `0` both give the sentinel. -/
def priceKey : Option ℚ → ℚ
  | none => 9999999
  | some q => if q == 0 then 9999999 else q

/-- Ascending lexicographic comparison of the Python sort-key tuples. -/
def candLE (a b : Candidate) : Prop :=
  -a.confidence < -b.confidence ∨
    (-a.confidence = -b.confidence ∧
      (-prefInt a.isPreferred < -prefInt b.isPreferred ∨
        (-prefInt a.isPreferred = -prefInt b.isPreferred ∧
          priceKey a.unitPrice ≤ priceKey b.unitPrice)))

instance : DecidableRel candLE := fun a b => by
  unfold candLE
  infer_instance

instance : IsTrans Candidate candLE where
  trans := by
    rintro a b c (h₁ | ⟨e₁, h₁ | ⟨f₁, g₁⟩⟩) (h₂ | ⟨e₂, h₂ | ⟨f₂, g₂⟩⟩)
    · exact Or.inl (h₁.trans h₂)
    · exact Or.inl (e₂ ▸ h₁)
    · exact Or.inl (e₂ ▸ h₁)
    · exact Or.inl (e₁ ▸ h₂)
    · exact Or.inr ⟨e₁.trans e₂, Or.inl (h₁.trans h₂)⟩
    · exact Or.inr ⟨e₁.trans e₂, Or.inl (f₂ ▸ h₁)⟩
    · exact Or.inl (e₁ ▸ h₂)
    · exact Or.inr ⟨e₁.trans e₂, Or.inl (f₁ ▸ h₂)⟩
    · exact Or.inr ⟨e₁.trans e₂, Or.inr ⟨f₁.trans f₂, g₁.trans g₂⟩⟩

instance : IsTotal Candidate candLE where
  total := by
    intro a b
    rcases lt_trichotomy (-a.confidence) (-b.confidence) with h | h | h
    · exact Or.inl (Or.inl h)
    · rcases lt_trichotomy (-prefInt a.isPreferred) (-prefInt b.isPreferred) with h' | h' | h'
      · exact Or.inl (Or.inr ⟨h, Or.inl h'⟩)
      · rcases le_total (priceKey a.unitPrice) (priceKey b.unitPrice) with h'' | h''
        · exact Or.inl (Or.inr ⟨h, Or.inr ⟨h', h''⟩⟩)
        · exact Or.inr (Or.inr ⟨h.symm, Or.inr ⟨h'.symm, h''⟩⟩)
      · exact Or.inr (Or.inr ⟨h.symm, Or.inl h'⟩)
    · exact Or.inr (Or.inl h)

/-- Python's stable `list.sort` with the key above. -/
def sortCandidates (l : List Candidate) : List Candidate :=
  List.insertionSort candLE l

/-! ### Exact/fuzzy catalog search (`search_supplier_catalog_impl`) -/

/-- Result dictionary of `search_supplier_catalog_impl`. -/
structure SearchResult where
  partNumberSearched : String
  exactMatches : ℕ
  fuzzyMatches : ℕ
  matchesList : List Candidate
deriving DecidableEq, Repr

/-- The query's filter (`search_tools.py:42-43`): same organization, active supplier. -/
def isActiveOrgRow (organizationId : ℕ) (r : CatalogRow) : Bool :=
  r.supplierOrgId == organizationId && r.supplierStatus == "active"

/-- Normalised supplier part number of a row (`(sp.supplier_part_number or "")`
then strip/upper/replace). -/
def rowSpPn (r : CatalogRow) : String :=
  normalizePN (r.supplierPartNumber.getD "")

/-- Normalised part number of a row (`(part.part_number or "")` then
strip/upper/replace). -/
def rowPartPn (r : CatalogRow) : String :=
  normalizePN (r.partNumber.getD "")

/-- Exact branch condition (`search_tools.py:55`). -/
def isExactRow (pnNormalized : String) (r : CatalogRow) : Bool :=
  rowSpPn r == pnNormalized || rowPartPn r == pnNormalized

/-- Fuzzy branch condition (`search_tools.py:72`):
`pn_normalized in sp_pn or pn_normalized in part_pn`. -/
def isFuzzyRow (pnNormalized : String) (r : CatalogRow) : Bool :=
  strIn pnNormalized (rowSpPn r) || strIn pnNormalized (rowPartPn r)

/-- `search_supplier_catalog_impl(db, part_number, organization_id)`
(`search_tools.py:18-103`).  The `db` session is replaced by the full list of
joined catalog rows; the query's filters are applied to it. -/
def search_supplier_catalog_impl (catalog : List CatalogRow) (part_number : String)
    (organization_id : ℕ) : SearchResult :=
  let pnNormalized := normalizePN part_number
  let rows := catalog.filter (isActiveOrgRow organization_id)
  let exact_matches := (rows.filter (fun r => isExactRow pnNormalized r)).map
    (rowCandidate 1 "exact")
  let fuzzy_matches := (rows.filter
    (fun r => !isExactRow pnNormalized r && isFuzzyRow pnNormalized r)).map
    (rowCandidate 0.85 "fuzzy")
  let all_matches := sortCandidates (exact_matches ++ fuzzy_matches)
  { partNumberSearched := part_number
    exactMatches := exact_matches.length
    fuzzyMatches := fuzzy_matches.length
    matchesList := all_matches.take 10 }

/-! ### Semantic search (`semantic_part_search_impl`, `search_tools.py:106-190`)

The embedding service and the vector-distance query are external capabilities:
the function receives the rows the Store returned for
`Part × cosine_distance` (already filtered to the organization, embedding
present, ordered by distance) and applies the query's `limit(top_k * 2)`.
-/

/-- One `Part` row as returned by the similarity query. -/
structure PartRow where
  partId : ℕ
  orgId : ℕ
  partNumber : Option String
  partDescription : Option String
deriving DecidableEq, Repr

/-- Result dictionary of `semantic_part_search_impl`. -/
structure SemResult where
  descriptionSearched : String
  matchesList : List Candidate
deriving DecidableEq, Repr

/-- The candidate dictionary built at `search_tools.py:160-175`: supplier
fields come from the joined `SupplierPart × Supplier` row, part fields from
the `Part` row, confidence is the similarity. -/
def semCandidate (part : PartRow) (similarity : ℚ) (r : CatalogRow) : Candidate :=
  { supplierId := r.supplierId
    supplierName := r.supplierName
    supplierCode := r.supplierCode
    supplierPartId := r.spId
    partId := part.partId
    partNumber := part.partNumber
    supplierPartNumber := r.supplierPartNumber
    description := part.partDescription
    unitPrice := pyPrice r.unitPrice
    leadTimeDays := pyOrLead r.spLeadTimeDays r.supplierLeadTimeDays
    minOrderQty := r.minOrderQty
    isPreferred := r.isPreferred
    confidence := similarity
    matchMethod := "semantic" }

/-- Supplier options for one part (`search_tools.py:151-157`): join on
`part_id`, active suppliers only (note: no organization filter here). -/
def supplierOptionsFor (catalog : List CatalogRow) (part : PartRow) : List CatalogRow :=
  catalog.filter (fun r => r.partId == part.partId && r.supplierStatus == "active")

/-- The accumulation loop of `search_tools.py:144-178`: skip parts below the
similarity floor, append every supplier option, break once `top_k` matches
are collected. -/
def semLoop (catalog : List CatalogRow) (minSimilarity : ℚ) (topK : ℕ) :
    List (PartRow × ℚ) → List Candidate → List Candidate
  | [], acc => acc
  | (part, distance) :: rest, acc =>
    let similarity := 1 - distance
    if similarity < minSimilarity then semLoop catalog minSimilarity topK rest acc
    else
      let acc2 := acc ++ (supplierOptionsFor catalog part).map (semCandidate part similarity)
      if topK ≤ acc2.length then acc2 else semLoop catalog minSimilarity topK rest acc2

/-- `semantic_part_search_impl(db, description, organization_id, top_k,
min_similarity)`.  `queryResults` stands for the Store's similarity query
output; `limit(top_k * 2)` is applied to it as in the source. -/
def semantic_part_search_impl (catalog : List CatalogRow) (queryResults : List (PartRow × ℚ))
    (description : String) (topK : ℕ) (minSimilarity : ℚ) : SemResult :=
  let ms := semLoop catalog minSimilarity topK (queryResults.take (topK * 2)) []
  { descriptionSearched := description
    matchesList := (sortCandidates ms).take topK }

/-! ### Grouping (`group_items_by_supplier_impl`, `po_tools.py:244-275`) -/

/-- The item dictionary `po_generator_node` passes to the grouping tool
(`orchestrator.py:368-381`). -/
structure GItem where
  id : ℕ
  matchedSupplierId : Option ℕ
  matchedSupplierPartId : Option ℕ
  partId : Option ℕ
  partNumberRaw : Option String
  descriptionRaw : Option String
  quantity : ℚ
  unitOfMeasure : String
  unitCost : ℚ
deriving DecidableEq, Repr

/-- The per-item dictionary placed into a supplier group (`po_tools.py:264-273`). -/
structure POItemIn where
  bomItemId : ℕ
  partId : Option ℕ
  supplierPartId : Option ℕ
  partNumber : Option String
  description : Option String
  quantity : ℚ
  unitOfMeasure : String
  unitPrice : ℚ
deriving DecidableEq, Repr

/-- The group entry built for one item. -/
def toPOItemIn (item : GItem) : POItemIn :=
  { bomItemId := item.id
    partId := item.partId
    supplierPartId := item.matchedSupplierPartId
    partNumber := item.partNumberRaw
    description := item.descriptionRaw
    quantity := item.quantity
    unitOfMeasure := item.unitOfMeasure
    unitPrice := item.unitCost }

/-- Append `v` to the group keyed `k`, creating the key at the end on first
use — the insertion-ordered Python dict of `group_items_by_supplier_impl`. -/
def insertGrouped : List (ℕ × List POItemIn) → ℕ → POItemIn → List (ℕ × List POItemIn)
  | [], k, v => [(k, [v])]
  | (k', vs) :: rest, k, v =>
    if k' == k then (k', vs ++ [v]) :: rest else (k', vs) :: insertGrouped rest k v

/-- One iteration of the `group_items_by_supplier_impl` loop: `if not
supplier_id: continue` skips both a missing and a zero supplier id, otherwise
the item's group entry is appended under its supplier id. -/
def groupStep (grouped : List (ℕ × List POItemIn)) (item : GItem) : List (ℕ × List POItemIn) :=
  match item.matchedSupplierId with
  | none => grouped
  | some sid => if sid == 0 then grouped else insertGrouped grouped sid (toPOItemIn item)

/-- `group_items_by_supplier_impl(bom_items)` (`po_tools.py:244-275`): the
returned Python dict, as an insertion-ordered association list. -/
def group_items_by_supplier_impl (bom_items : List GItem) : List (ℕ × List POItemIn) :=
  bom_items.foldl groupStep []

/-- Lookup of a supplier's group in the association list (`grouped[sid]`),
empty when absent. -/
def groupOf (grouped : List (ℕ × List POItemIn)) (sid : ℕ) : List POItemIn :=
  match grouped.find? (fun p => p.1 == sid) with
  | some p => p.2
  | none => []

/-! ### Orchestrator data (`backend/agents/orchestrator.py`) -/

/-- One entry of `bom_item.alternative_matches` (`orchestrator.py:219-228`). -/
structure AltMatch where
  supplierId : ℕ
  supplierPartId : ℕ
  supplierName : String
  unitPrice : Option ℚ
  confidence : ℚ
deriving DecidableEq, Repr

/-- A persisted `BOMItem` row, with the match annotations the matcher writes. -/
structure BomItem where
  id : ℕ
  lineNumber : ℕ
  partNumberRaw : Option String
  descriptionRaw : Option String
  quantity : ℚ
  unitOfMeasure : String
  status : String
  reviewReason : Option String
  matchedSupplierId : Option ℕ
  matchedSupplierPartId : Option ℕ
  unitCost : Option ℚ
  leadTimeDays : Option ℕ
  matchConfidence : Option ℚ
  matchMethod : Option String
  alternativeMatches : List AltMatch
  extendedCost : Option ℚ
  partId : Option ℕ
deriving DecidableEq, Repr

/-- One entry of the matcher's `matched_items` list (`orchestrator.py:247-254`). -/
structure MatchedEntry where
  id : ℕ
  partNumberRaw : Option String
  matchedSupplierId : Option ℕ
  matchedSupplierPartId : Option ℕ
  unitCost : Option ℚ
  quantity : ℚ
deriving DecidableEq, Repr

/-- One entry of the matcher's `unmatched_items` list (`orchestrator.py:258-262`). -/
structure UnmatchedEntry where
  id : ℕ
  partNumberRaw : Option String
  descriptionRaw : Option String
deriving DecidableEq, Repr

/-- One entry of the matcher's `review_items` list (`orchestrator.py:234-240`,
`263-269`). -/
structure ReviewEntry where
  bomItemId : ℕ
  partNumber : Option String
  description : Option String
  matchConfidence : ℚ
  alternatives : List AltMatch
deriving DecidableEq, Repr

/-- One parsed line item as the Parser capability returns it
(`parsing_tools.py` item dicts). -/
structure ParsedItem where
  lineNumber : ℕ
  partNumberRaw : Option String
  descriptionRaw : Option String
  quantity : ℚ
  unitOfMeasure : String
deriving DecidableEq, Repr

/-- The dictionary `parse_excel_bom` / `parse_csv_bom` return: `success`,
optional `error`, `items`. -/
structure ParseOutcome where
  success : Bool
  error : Option String
  items : List ParsedItem
deriving DecidableEq, Repr

/-- One `ApprovalRequest` row created by `human_review_node`
(`orchestrator.py:307-317`). -/
structure ApprovalRequest where
  entityType : String
  entityId : ℕ
  requestType : String
  title : String
  description : String
deriving DecidableEq, Repr

/-- One write to the persisted `AgentTask` / `BOM` records: the calls to
`update_task_progress` and `update_bom_progress` plus the direct field
assignments inside the nodes. -/
inductive Report where
  | task (progress : ℚ) (step : String)
  | bom (status : String) (progress : ℚ) (step : String)
  | bomProgressOnly (progress : ℚ)
  | bomStatusOnly (status : String) (step : String)
  | taskStatusOnly (status : String) (step : String)
deriving DecidableEq, Repr

/-- The `WorkflowState` dict passed between the graph's nodes (the fields the
claims need). -/
structure RunSt where
  progress : ℚ
  error : Option String
  parsedItems : List ParsedItem
  matchedItems : List MatchedEntry
  unmatchedItems : List UnmatchedEntry
  reviewItems : List ReviewEntry
  needsHumanReview : Bool
  draftPos : List (ℕ × List POItemIn)
  currentAgent : String
  currentStep : String
  completed : Bool
deriving Repr

/-- The initial `WorkflowState` built in `process_bom_workflow`
(`orchestrator.py:538-556`). -/
def initialState : RunSt :=
  { progress := 0, error := none, parsedItems := [], matchedItems := []
    unmatchedItems := [], reviewItems := [], needsHumanReview := false
    draftPos := [], currentAgent := "orchestrator", currentStep := "Starting"
    completed := false }

/-! ### Per-item matching (`matcher_node`, `orchestrator.py:189-269`)

The two catalog searches are capabilities that may raise
(`Except.error`).  In the source only the semantic call sits inside
`try/except`; the exact/fuzzy call at `orchestrator.py:194` is unguarded, so
its exception propagates out of the matcher.
-/

/-- Tier selection (`orchestrator.py:189-209`): exact/fuzzy first (only for a
truthy part number, unguarded), then — when still unmatched, with a truthy
description and an OpenAI key — the semantic search inside `try/except`.
Returns `(best_match, alternatives)` from `matches[0]` and `matches[1:5]`. -/
def selectMatch (exactSearch : String → Except String (List Candidate))
    (semSearch : String → Except String (List Candidate))
    (openaiKeySet : Bool) (item : BomItem) :
    Except String (Option Candidate × List Candidate) :=
  (match item.partNumberRaw with
    | some pn =>
      if pn == "" then Except.ok (none, [])
      else (exactSearch pn).map (fun (ms : List Candidate) => (ms.head?, (ms.drop 1).take 4))
    | none => Except.ok (none, [])).bind
    (fun sel =>
      if sel.1.isNone && truthyStr item.descriptionRaw && openaiKeySet then
        match semSearch (item.descriptionRaw.getD "") with
        | Except.error _ => Except.ok sel
        | Except.ok ms =>
          if ms.isEmpty then Except.ok sel
          else Except.ok (ms.head?, (ms.drop 1).take 4)
      else Except.ok sel)

/-- The outcome of processing one BOM item: the updated row and the entries
appended to the matcher's three lists. -/
structure ItemMatchOutcome where
  item : BomItem
  matchedEntry : Option MatchedEntry
  unmatchedEntry : Option UnmatchedEntry
  reviewEntry : Option ReviewEntry
deriving DecidableEq, Repr

/-- The alternative-match dictionaries stored on the item (`orchestrator.py:219-228`). -/
def altOf (c : Candidate) : AltMatch :=
  { supplierId := c.supplierId, supplierPartId := c.supplierPartId
    supplierName := c.supplierName, unitPrice := c.unitPrice
    confidence := c.confidence }

/-- Item update and classification (`orchestrator.py:211-269`): annotate the
row, route to `needs_review` when the best confidence is below the threshold
or there is no match at all, and build the list entries. -/
def processItem (threshold : ℚ) (item : BomItem)
    (sel : Option Candidate × List Candidate) : ItemMatchOutcome :=
  match sel.1 with
  | some best =>
    let altsList := sel.2.map altOf
    let base := { item with
      matchedSupplierId := some best.supplierId
      matchedSupplierPartId := some best.supplierPartId
      unitCost := pyPrice best.unitPrice
      leadTimeDays := best.leadTimeDays
      matchConfidence := some best.confidence
      matchMethod := some best.matchMethod
      alternativeMatches := altsList }
    let withStatus :=
      if best.confidence < threshold then
        { base with status := "needs_review", reviewReason := some (lowConfReason best.confidence) }
      else { base with status := "matched" }
    let final :=
      match withStatus.unitCost with
      | some uc =>
        if uc == 0 then withStatus
        else { withStatus with extendedCost := some (uc * withStatus.quantity) }
      | none => withStatus
    { item := final
      matchedEntry := some
        { id := final.id, partNumberRaw := final.partNumberRaw
          matchedSupplierId := final.matchedSupplierId
          matchedSupplierPartId := final.matchedSupplierPartId
          unitCost := final.unitCost, quantity := final.quantity }
      unmatchedEntry := none
      reviewEntry :=
        if best.confidence < threshold then
          some { bomItemId := item.id, partNumber := item.partNumberRaw
                 description := item.descriptionRaw
                 matchConfidence := best.confidence, alternatives := altsList }
        else none }
  | none =>
    let final := { item with status := "needs_review", reviewReason := some "No supplier match found" }
    { item := final
      matchedEntry := none
      unmatchedEntry := some
        { id := item.id, partNumberRaw := item.partNumberRaw
          descriptionRaw := item.descriptionRaw }
      reviewEntry := some
        { bomItemId := item.id, partNumber := item.partNumberRaw
          description := item.descriptionRaw, matchConfidence := 0, alternatives := [] } }

/-- One full item of the matcher loop body. -/
def matchOneItem (exactSearch : String → Except String (List Candidate))
    (semSearch : String → Except String (List Candidate))
    (openaiKeySet : Bool) (threshold : ℚ) (item : BomItem) :
    Except String ItemMatchOutcome :=
  (selectMatch exactSearch semSearch openaiKeySet item).map (processItem threshold item)

/-! ### Workflow nodes (`orchestrator.py:91-449`) -/

/-- A node's output: the returned `WorkflowState`, the task/BOM record writes
it performed, and the persisted `BOMItem` rows after it ran. -/
structure NodeOut where
  state : RunSt
  reports : List Report
  items : List BomItem
deriving Repr

/-- Append an optional entry (`list.append` under `if`). -/
def optApp (l : List α) : Option α → List α
  | none => l
  | some a => l ++ [a]

/-- File-type dispatch of `parser_node` (`orchestrator.py:102-108`): the two
parser capabilities' results, or the unsupported-type error dictionary. -/
def parseByType (fileType : String) (excelRes csvRes : ParseOutcome) : ParseOutcome :=
  if fileType == "excel" then excelRes
  else if fileType == "csv" then csvRes
  else { success := false, error := some ("Unsupported file type: " ++ fileType), items := [] }

/-- The `BOMItem` row persisted for one parsed item (`orchestrator.py:138-147`);
ids are modelled by list position. -/
def parsedToBomItem (rowId : ℕ) (p : ParsedItem) : BomItem :=
  { id := rowId, lineNumber := p.lineNumber, partNumberRaw := p.partNumberRaw
    descriptionRaw := p.descriptionRaw, quantity := p.quantity
    unitOfMeasure := p.unitOfMeasure, status := "pending", reviewReason := none
    matchedSupplierId := none, matchedSupplierPartId := none, unitCost := none
    leadTimeDays := none, matchConfidence := none, matchMethod := none
    alternativeMatches := [], extendedCost := none, partId := none }

/-- `parser_node` (`orchestrator.py:91-162`).  On a parse failure it returns
the state with `error` set and performs no item writes; on success it
persists the items (with the in-transaction `processing_progress = 25` write)
and reports the 25% checkpoint.  `validate_bom_structure` only logs. -/
def parser_node (fileType : String) (excelRes csvRes : ParseOutcome) (st : RunSt) : NodeOut :=
  let pre := [Report.task 10 "Parsing BOM file",
              Report.bom "parsing" 10 "Reading and parsing file"]
  let result := parseByType fileType excelRes csvRes
  if !result.success then
    { state := { st with
        error := some ((result.error).getD "Failed to parse BOM")
        parsedItems := [], currentAgent := "parser"
        currentStep := "Parse failed", progress := 10 }
      reports := pre
      items := [] }
  else
    let items := result.items
    let persisted := items.enum.map (fun ip => parsedToBomItem ip.1 ip.2)
    { state := { st with
        parsedItems := items, currentAgent := "parser"
        currentStep := s!"Parsed {items.length} items", progress := 25 }
      reports := pre ++
        [Report.bomProgressOnly 25,
         Report.task 25 s!"Parsed {items.length} items",
         Report.bom "parsing" 25 s!"Extracted {items.length} line items"]
      items := persisted }

/-- Accumulator of the matcher's per-item loop. -/
structure MatcherAcc where
  reports : List Report
  items : List BomItem
  matchedItems : List MatchedEntry
  unmatchedItems : List UnmatchedEntry
  reviewItems : List ReviewEntry
deriving Repr

/-- The matcher's per-item loop (`orchestrator.py:185-269`): report the
interpolated 30–60% progress, match, annotate, collect. -/
def matcherLoop (exactSearch semSearch : String → Except String (List Candidate))
    (openaiKeySet : Bool) (threshold : ℚ) (total : ℕ) :
    List (ℕ × BomItem) → MatcherAcc → Except String MatcherAcc
  | [], acc => Except.ok acc
  | (idx, it) :: rest, acc =>
    let progress : ℚ := 30 + ((idx : ℚ) / (total : ℚ)) * 30
    let rep := Report.bom "matching" progress s!"Matching item {idx + 1}/{total}"
    match matchOneItem exactSearch semSearch openaiKeySet threshold it with
    | Except.error e => Except.error e
    | Except.ok out =>
      matcherLoop exactSearch semSearch openaiKeySet threshold total rest
        { reports := acc.reports ++ [rep]
          items := acc.items ++ [out.item]
          matchedItems := optApp acc.matchedItems out.matchedEntry
          unmatchedItems := optApp acc.unmatchedItems out.unmatchedEntry
          reviewItems := optApp acc.reviewItems out.reviewEntry }

/-- `matcher_node` (`orchestrator.py:165-294`).  The `BOM not found` early
return is not modelled: the run's BOM exists by construction.  The BOM-total
writes (`matched_items`, `total_cost`) carry no progress and are omitted. -/
def matcher_node (exactSearch semSearch : String → Except String (List Candidate))
    (openaiKeySet : Bool) (threshold : ℚ) (st : RunSt) (bomItems : List BomItem) :
    Except String NodeOut :=
  let total := bomItems.length
  let pre := [Report.task 30 "Matching suppliers",
              Report.bom "matching" 30 "Finding supplier matches"]
  (matcherLoop exactSearch semSearch openaiKeySet threshold total bomItems.enum
      { reports := [], items := [], matchedItems := [], unmatchedItems := [], reviewItems := [] }).map
    (fun acc =>
      let post := [Report.task 60 s!"Matched {acc.matchedItems.length}/{total} items",
                   Report.bom "matching" 60 s!"Matched {acc.matchedItems.length} items"]
      { state := { st with
          matchedItems := acc.matchedItems
          unmatchedItems := acc.unmatchedItems
          reviewItems := acc.reviewItems
          needsHumanReview := decide (0 < acc.reviewItems.length)
          currentAgent := "matcher"
          currentStep := s!"Matched {acc.matchedItems.length}/{total} items"
          progress := 60 }
        reports := pre ++ acc.reports ++ post
        items := acc.items })

/-- Output of `human_review_node`: state, record writes, created approvals. -/
structure ReviewNodeOut where
  state : RunSt
  reports : List Report
  approvals : List ApprovalRequest
deriving Repr

/-- The `ApprovalRequest` created for one review item (`orchestrator.py:307-316`). -/
def mkApproval (re : ReviewEntry) : ApprovalRequest :=
  { entityType := "supplier_match"
    entityId := re.bomItemId
    requestType := "match_review"
    title := "Review match: " ++ fmtOptStr (pyOrStr re.partNumber re.description)
    description := "Confidence: " ++ formatPct re.matchConfidence ++ ". " ++
      toString re.alternatives.length ++ " alternatives available." }

/-- `human_review_node` (`orchestrator.py:297-332`): one `ApprovalRequest`
per review item, task paused, BOM status `awaiting_review`.  No progress
value is written. -/
def human_review_node (st : RunSt) : ReviewNodeOut :=
  { state := { st with currentStep := "Awaiting human review" }
    reports := [Report.taskStatusOnly "paused" "Waiting for human review",
                Report.bomStatusOnly "awaiting_review" s!"Review {st.reviewItems.length} items"]
    approvals := st.reviewItems.map mkApproval }

/-- The dictionary conversion at `orchestrator.py:368-381`
(`float(item.unit_cost) if item.unit_cost else 0`). -/
def itemToGItem (it : BomItem) : GItem :=
  { id := it.id, matchedSupplierId := it.matchedSupplierId
    matchedSupplierPartId := it.matchedSupplierPartId, partId := it.partId
    partNumberRaw := it.partNumberRaw, descriptionRaw := it.descriptionRaw
    quantity := it.quantity, unitOfMeasure := it.unitOfMeasure
    unitCost := match it.unitCost with
      | some c => if c == 0 then 0 else c
      | none => 0 }

/-- Eligibility filter of `po_generator_node` (`orchestrator.py:350-356`):
status in {matched, confirmed} and a resolved supplier. -/
def isEligibleItem (it : BomItem) : Bool :=
  (it.status == "matched" || it.status == "confirmed") && it.matchedSupplierId.isSome

/-- `po_generator_node` (`orchestrator.py:335-416`).  `create_po_draft_impl`
touches the Store (supplier lookup, PO numbering); its success per supplier id
is the `poSuccess` capability.  Items of each successfully created group are
confirmed. -/
def po_generator_node (poSuccess : ℕ → Bool) (st : RunSt) (items : List BomItem) : NodeOut :=
  let pre := [Report.task 70 "Generating purchase orders",
              Report.bom "generating_pos" 70 "Creating purchase orders"]
  let eligible := items.filter isEligibleItem
  if eligible.isEmpty then
    { state := { st with draftPos := [], currentStep := "No items to order", progress := 90 }
      reports := pre
      items := items }
  else
    let grouped := group_items_by_supplier_impl (eligible.map itemToGItem)
    let draftPos := grouped.filter (fun g => poSuccess g.1)
    let confirmedIds := (draftPos.map (fun g => g.2.map (fun i => i.bomItemId))).flatten
    let post := [Report.task 90 s!"Created {draftPos.length} POs",
                 Report.bom "generating_pos" 90 s!"Created {draftPos.length} purchase orders"]
    { state := { st with
        draftPos := draftPos, currentAgent := "po_generator"
        currentStep := s!"Created {draftPos.length} purchase orders", progress := 90 }
      reports := pre ++ post
      items := items.map (fun it =>
        if confirmedIds.contains it.id then { it with status := "confirmed" } else it) }

/-- `completion_node` (`orchestrator.py:419-449`). -/
def completion_node (st : RunSt) : RunSt × List Report :=
  ({ st with completed := true, progress := 100, currentStep := "Completed" },
   [Report.taskStatusOnly "completed" "Completed",
    Report.task 100 "Completed",
    Report.bom "completed" 100 "Processing complete"])

/-! ### Routing and the compiled graph (`orchestrator.py:454-511`) -/

/-- `check_error` (`orchestrator.py:461-465`); `state.get("error")` is falsy
for `None` and `""`. -/
def check_error (st : RunSt) : String :=
  match st.error with
  | none => "continue"
  | some e => if e == "" then "continue" else "error"

/-- `should_review` (`orchestrator.py:454-458`). -/
def should_review (st : RunSt) : String :=
  if st.needsHumanReview && !st.reviewItems.isEmpty then "review" else "generate"

/-- The conditional edge out of the matcher
(`{"review": "human_review", "generate": "po_generator"}`). -/
def matcherRoute (st : RunSt) : String :=
  if should_review st == "review" then "human_review" else "po_generator"

/-- The run's observable outcome: final state, all record writes in order,
final `BOMItem` rows, created `ApprovalRequest`s. -/
structure RunOutput where
  state : RunSt
  reports : List Report
  items : List BomItem
  approvals : List ApprovalRequest
deriving Repr

/-- One invocation of the compiled workflow (`create_bom_workflow`,
`orchestrator.py:470-511`): parser, then `check_error` routes to END or the
matcher; `should_review` routes to `human_review` (which falls through to the
generator) or straight to the generator; then completion. -/
def workflowRun (fileType : String) (excelRes csvRes : ParseOutcome)
    (exactSearch semSearch : String → Except String (List Candidate))
    (openaiKeySet : Bool) (threshold : ℚ) (poSuccess : ℕ → Bool)
    (st0 : RunSt) : Except String RunOutput :=
  let p := parser_node fileType excelRes csvRes st0
  if check_error p.state == "error" then
    Except.ok { state := p.state, reports := p.reports, items := p.items, approvals := [] }
  else
    (matcher_node exactSearch semSearch openaiKeySet threshold p.state p.items).bind
      (fun m =>
        let afterReview :=
          if matcherRoute m.state == "human_review" then
            let h := human_review_node m.state
            (h.state, m.reports ++ h.reports, h.approvals)
          else (m.state, m.reports, ([] : List ApprovalRequest))
        let g := po_generator_node poSuccess afterReview.1 m.items
        let c := completion_node g.state
        Except.ok { state := c.1
                    reports := p.reports ++ afterReview.2.1 ++ g.reports ++ c.2
                    items := g.items
                    approvals := afterReview.2.2 })

/-! ### Extracting the reported progress and status streams -/

/-- Progress values written to the `AgentTask` record, in write order. -/
def taskProgressValues : List Report → List ℚ
  | [] => []
  | Report.task p _ :: rs => p :: taskProgressValues rs
  | _ :: rs => taskProgressValues rs

/-- Progress values written to the `BOM` record, in write order. -/
def bomProgressValues : List Report → List ℚ
  | [] => []
  | Report.bom _ p _ :: rs => p :: bomProgressValues rs
  | Report.bomProgressOnly p :: rs => p :: bomProgressValues rs
  | _ :: rs => bomProgressValues rs

/-- Status values written to the `BOM` record, in write order. -/
def bomStatusValues : List Report → List String
  | [] => []
  | Report.bom s _ _ :: rs => s :: bomStatusValues rs
  | Report.bomStatusOnly s _ :: rs => s :: bomStatusValues rs
  | _ :: rs => bomStatusValues rs

/-! ## Lemmas about the candidate sort -/

theorem sortCandidates_perm (l : List Candidate) : (sortCandidates l).Perm l :=
  List.perm_insertionSort candLE l

theorem sortCandidates_sorted (l : List Candidate) : List.Sorted candLE (sortCandidates l) :=
  List.sorted_insertionSort candLE l

theorem mem_sortCandidates {c : Candidate} {l : List Candidate} :
    c ∈ sortCandidates l ↔ c ∈ l :=
  (sortCandidates_perm l).mem_iff

theorem candLE_conf_le {a b : Candidate} (h : candLE a b) : b.confidence ≤ a.confidence := by
  rcases h with h | ⟨h, _⟩
  · exact le_of_lt (by linarith [neg_lt_neg_iff.mp h])
  · exact le_of_eq (by linarith [neg_injective h])

theorem head?_take10 {l : List Candidate} {hd : Candidate} (h : l.head? = some hd) :
    (l.take 10).head? = some hd := by
  cases l with
  | nil => simp at h
  | cons a tl => simpa using h

theorem sorted_head?_max {l : List Candidate} {hd x : Candidate}
    (hs : List.Sorted candLE l) (hh : l.head? = some hd) (hx : x ∈ l) :
    x.confidence ≤ hd.confidence := by
  cases l with
  | nil => simp at hx
  | cons a tl =>
    obtain rfl : a = hd := by simpa using hh
    rcases List.mem_cons.mp hx with rfl | hx
    · exact le_refl _
    · exact candLE_conf_le ((List.sorted_cons.mp hs).1 x hx)

/-- Every candidate the exact/fuzzy search returns carries either the exact
or the fuzzy confidence and method, and stems from an active same-organization
catalog row satisfying the respective condition. -/
theorem mem_search_matches {catalog : List CatalogRow} {pn : String} {org : ℕ}
    {c : Candidate} (h : c ∈ (search_supplier_catalog_impl catalog pn org).matchesList) :
    (∃ r ∈ catalog, isActiveOrgRow org r = true ∧ isExactRow (normalizePN pn) r = true ∧
      c = rowCandidate 1 "exact" r) ∨
    (∃ r ∈ catalog, isActiveOrgRow org r = true ∧ isExactRow (normalizePN pn) r = false ∧
      isFuzzyRow (normalizePN pn) r = true ∧ c = rowCandidate 0.85 "fuzzy" r) := by
  unfold search_supplier_catalog_impl at h
  simp only at h
  have h' := mem_sortCandidates.mp ((List.take_sublist _ _).subset h)
  rcases List.mem_append.mp h' with hm | hm
  · left
    obtain ⟨r, hr, rfl⟩ := List.mem_map.mp hm
    obtain ⟨hrc, hcond⟩ := List.mem_filter.mp hr
    obtain ⟨hcat, hact⟩ := List.mem_filter.mp hrc
    exact ⟨r, hcat, hact, hcond, rfl⟩
  · right
    obtain ⟨r, hr, rfl⟩ := List.mem_map.mp hm
    obtain ⟨hrc, hcond⟩ := List.mem_filter.mp hr
    obtain ⟨hcat, hact⟩ := List.mem_filter.mp hrc
    rw [Bool.and_eq_true] at hcond
    obtain ⟨hne, hfz⟩ := hcond
    exact ⟨r, hcat, hact, by simpa using hne, hfz, rfl⟩

/-! ## C5: the exact tier -/

/-- C5.  Exact tier: whenever some active catalog row of the organization has
a part number or supplier part number that normalizes to the item's
normalized raw part number, `search_supplier_catalog_impl` returns a best
(first) candidate with confidence 1.0 and method `"exact"`. -/
theorem exact_tier_confidence (catalog : List CatalogRow) (part_number : String)
    (organization_id : ℕ)
    (h : ∃ r ∈ catalog, isActiveOrgRow organization_id r = true ∧
      isExactRow (normalizePN part_number) r = true) :
    ∃ b, (search_supplier_catalog_impl catalog part_number organization_id).matchesList.head?
        = some b ∧ b.confidence = 1 ∧ b.matchMethod = "exact" := by
  obtain ⟨r, hcat, hact, hex⟩ := h
  set pnN := normalizePN part_number with hpn
  set rows := catalog.filter (isActiveOrgRow organization_id) with hrows
  have hrmem : r ∈ rows := List.mem_filter.mpr ⟨hcat, hact⟩
  set exacts := (rows.filter (fun r => isExactRow pnN r)).map (rowCandidate 1 "exact")
    with hexacts
  set fuzzies := (rows.filter
      (fun r => !isExactRow pnN r && isFuzzyRow pnN r)).map (rowCandidate 0.85 "fuzzy")
    with hfuzzies
  have hemem : rowCandidate 1 "exact" r ∈ exacts :=
    List.mem_map_of_mem _ (List.mem_filter.mpr ⟨hrmem, hex⟩)
  have hall : rowCandidate 1 "exact" r ∈ exacts ++ fuzzies := List.mem_append_left _ hemem
  have hsortmem : rowCandidate 1 "exact" r ∈ sortCandidates (exacts ++ fuzzies) :=
    mem_sortCandidates.mpr hall
  obtain ⟨hd, tl, hcons⟩ := List.exists_cons_of_ne_nil (List.ne_nil_of_mem hsortmem)
  have hhd : (sortCandidates (exacts ++ fuzzies)).head? = some hd := by rw [hcons]; rfl
  have hconf : (1 : ℚ) ≤ hd.confidence := by
    have := sorted_head?_max (sortCandidates_sorted (exacts ++ fuzzies)) hhd hsortmem
    simpa using this
  have hhdmem : hd ∈ exacts ++ fuzzies := by
    refine mem_sortCandidates.mp ?_
    rw [hcons]; exact List.mem_cons_self _ _
  have hmatches : (search_supplier_catalog_impl catalog part_number organization_id).matchesList
      = (sortCandidates (exacts ++ fuzzies)).take 10 := rfl
  refine ⟨hd, by rw [hmatches]; exact head?_take10 hhd, ?_, ?_⟩
  · rcases List.mem_append.mp hhdmem with hm | hm
    · obtain ⟨r', _, rfl⟩ := List.mem_map.mp hm; rfl
    · obtain ⟨r', _, rfl⟩ := List.mem_map.mp hm
      exact absurd hconf (by norm_num [rowCandidate])
  · rcases List.mem_append.mp hhdmem with hm | hm
    · obtain ⟨r', _, rfl⟩ := List.mem_map.mp hm; rfl
    · obtain ⟨r', _, rfl⟩ := List.mem_map.mp hm
      exact absurd hconf (by norm_num [rowCandidate])

/-- Witness for C5: the spec's scenario — raw part number `"ABC-123"` against
a catalog entry `"ABC123"` is an exact match with confidence 1.0. -/
theorem exact_tier_confidence_witness :
    ∃ b, (search_supplier_catalog_impl
        [{ spId := 1, supplierId := 5, supplierName := "Acme", supplierCode := "AC"
           supplierStatus := "active", supplierOrgId := 1, supplierLeadTimeDays := none
           spLeadTimeDays := none, partId := 10, partNumber := some "ABC123"
           supplierPartNumber := some "SUP1", partDescription := some "widget"
           unitPrice := none, minOrderQty := none, isPreferred := false }]
        "ABC-123" 1).matchesList.head? = some b ∧ b.confidence = 1 ∧ b.matchMethod = "exact" :=
  exact_tier_confidence _ "ABC-123" 1 (by decide)

/-! ## C6: the fuzzy tier -/

/-- Counterexample to C6 as stated.  The claim asserts fuzzy matching also
fires when the normalized raw part number *contains* a normalized catalog
number.  For the raw number `"ABC123X"` against the catalog entry `"ABC123"`
the raw number contains the catalog number and there is no exact match, yet
`search_supplier_catalog_impl` returns no candidate at all: the source only
tests `pn_normalized in sp_pn or pn_normalized in part_pn`
(`search_tools.py:72`), never the converse containment. -/
theorem fuzzy_tier_contains_counterexample :
    strIn (rowPartPn
      { spId := 1, supplierId := 5, supplierName := "Acme", supplierCode := "AC"
        supplierStatus := "active", supplierOrgId := 1, supplierLeadTimeDays := none
        spLeadTimeDays := none, partId := 10, partNumber := some "ABC123"
        supplierPartNumber := none, partDescription := some "widget"
        unitPrice := none, minOrderQty := none, isPreferred := false })
      (normalizePN "ABC123X") = true ∧
    isExactRow (normalizePN "ABC123X")
      { spId := 1, supplierId := 5, supplierName := "Acme", supplierCode := "AC"
        supplierStatus := "active", supplierOrgId := 1, supplierLeadTimeDays := none
        spLeadTimeDays := none, partId := 10, partNumber := some "ABC123"
        supplierPartNumber := none, partDescription := some "widget"
        unitPrice := none, minOrderQty := none, isPreferred := false } = false ∧
    (search_supplier_catalog_impl
      [{ spId := 1, supplierId := 5, supplierName := "Acme", supplierCode := "AC"
         supplierStatus := "active", supplierOrgId := 1, supplierLeadTimeDays := none
         spLeadTimeDays := none, partId := 10, partNumber := some "ABC123"
         supplierPartNumber := none, partDescription := some "widget"
         unitPrice := none, minOrderQty := none, isPreferred := false }]
      "ABC123X" 1).matchesList = [] := by decide

/-- C6 (amended).  Fuzzy tier: for a line item with no exact match among the
organization's active rows, if the normalized raw part number is a substring
of a normalized catalog part number or supplier part number (the only
direction the source tests), the first returned candidate has confidence 0.85
and method `"fuzzy"`. -/
theorem fuzzy_tier_confidence (catalog : List CatalogRow) (part_number : String)
    (organization_id : ℕ)
    (h1 : ∀ r ∈ catalog, isActiveOrgRow organization_id r = true →
      isExactRow (normalizePN part_number) r = false)
    (h2 : ∃ r ∈ catalog, isActiveOrgRow organization_id r = true ∧
      isFuzzyRow (normalizePN part_number) r = true) :
    ∃ b, (search_supplier_catalog_impl catalog part_number organization_id).matchesList.head?
        = some b ∧ b.confidence = 0.85 ∧ b.matchMethod = "fuzzy" := by
  obtain ⟨r, hcat, hact, hfz⟩ := h2
  set pnN := normalizePN part_number with hpn
  set rows := catalog.filter (isActiveOrgRow organization_id) with hrows
  have hrmem : r ∈ rows := List.mem_filter.mpr ⟨hcat, hact⟩
  set exacts := (rows.filter (fun r => isExactRow pnN r)).map (rowCandidate 1 "exact")
    with hexacts
  set fuzzies := (rows.filter
      (fun r => !isExactRow pnN r && isFuzzyRow pnN r)).map (rowCandidate 0.85 "fuzzy")
    with hfuzzies
  have hfmem : rowCandidate 0.85 "fuzzy" r ∈ fuzzies := by
    refine List.mem_map_of_mem _ (List.mem_filter.mpr ⟨hrmem, ?_⟩)
    rw [Bool.and_eq_true]
    exact ⟨by simp [h1 r hcat hact], hfz⟩
  have hall : rowCandidate 0.85 "fuzzy" r ∈ exacts ++ fuzzies := List.mem_append_right _ hfmem
  have hsortmem : rowCandidate 0.85 "fuzzy" r ∈ sortCandidates (exacts ++ fuzzies) :=
    mem_sortCandidates.mpr hall
  obtain ⟨hd, tl, hcons⟩ := List.exists_cons_of_ne_nil (List.ne_nil_of_mem hsortmem)
  have hhd : (sortCandidates (exacts ++ fuzzies)).head? = some hd := by rw [hcons]; rfl
  have hhdmem : hd ∈ exacts ++ fuzzies := by
    refine mem_sortCandidates.mp ?_
    rw [hcons]; exact List.mem_cons_self _ _
  have hmatches : (search_supplier_catalog_impl catalog part_number organization_id).matchesList
      = (sortCandidates (exacts ++ fuzzies)).take 10 := rfl
  have hexempty : exacts = [] := by
    rw [hexacts, List.map_eq_nil_iff]
    rw [List.filter_eq_nil_iff]
    intro a ha
    obtain ⟨hacat, haact⟩ := List.mem_filter.mp ha
    simp [h1 a hacat haact]
  refine ⟨hd, by rw [hmatches]; exact head?_take10 hhd, ?_, ?_⟩
  · rcases List.mem_append.mp hhdmem with hm | hm
    · rw [hexempty] at hm; simp at hm
    · obtain ⟨r', _, rfl⟩ := List.mem_map.mp hm; rfl
  · rcases List.mem_append.mp hhdmem with hm | hm
    · rw [hexempty] at hm; simp at hm
    · obtain ⟨r', _, rfl⟩ := List.mem_map.mp hm; rfl

/-- Witness for the amended C6: raw number `"ABC123"` is a substring of the
catalog entry `"ABC123XYZ"`; the first candidate is fuzzy with confidence 0.85. -/
theorem fuzzy_tier_confidence_witness :
    ∃ b, (search_supplier_catalog_impl
        [{ spId := 1, supplierId := 5, supplierName := "Acme", supplierCode := "AC"
           supplierStatus := "active", supplierOrgId := 1, supplierLeadTimeDays := none
           spLeadTimeDays := none, partId := 10, partNumber := some "ABC123XYZ"
           supplierPartNumber := none, partDescription := some "widget"
           unitPrice := none, minOrderQty := none, isPreferred := false }]
        "ABC123" 1).matchesList.head? = some b ∧ b.confidence = 0.85 ∧ b.matchMethod = "fuzzy" :=
  fuzzy_tier_confidence _ "ABC123" 1 (by decide) (by decide)

/-! ## C4: the review threshold boundary -/

theorem processItem_status_some (threshold : ℚ) (item : BomItem) (best : Candidate)
    (alts : List Candidate) :
    (processItem threshold item (some best, alts)).item.status
      = if best.confidence < threshold then "needs_review" else "matched" := by
  unfold processItem
  by_cases hc : best.confidence < threshold <;>
    simp only [hc, if_pos, if_neg, not_false_iff] <;>
    cases hp : pyPrice best.unitPrice <;>
    simp [hp] <;>
    split <;> rfl

theorem processItem_reviewReason_some (threshold : ℚ) (item : BomItem) (best : Candidate)
    (alts : List Candidate) :
    (processItem threshold item (some best, alts)).item.reviewReason
      = if best.confidence < threshold then some (lowConfReason best.confidence)
        else item.reviewReason := by
  unfold processItem
  by_cases hc : best.confidence < threshold <;>
    simp only [hc, if_pos, if_neg, not_false_iff] <;>
    cases hp : pyPrice best.unitPrice <;>
    simp [hp] <;>
    split <;> rfl

theorem processItem_reviewEntry_some (threshold : ℚ) (item : BomItem) (best : Candidate)
    (alts : List Candidate) :
    (processItem threshold item (some best, alts)).reviewEntry
      = if best.confidence < threshold then
          some { bomItemId := item.id, partNumber := item.partNumberRaw
                 description := item.descriptionRaw, matchConfidence := best.confidence
                 alternatives := alts.map altOf }
        else none := by
  unfold processItem
  by_cases hc : best.confidence < threshold <;> simp [hc]

/-- C4.  Threshold boundary: an item whose best candidate's confidence equals
the threshold (default 0.8, `config.py:73`) is `matched` with no review
entry; review fires exactly when the confidence is strictly below the
threshold, and then the reason is `"Low confidence match ({confidence}%)"`. -/
theorem threshold_boundary (threshold : ℚ) (item : BomItem) (best : Candidate)
    (alts : List Candidate) :
    match_confidence_threshold = 0.8 ∧
    (best.confidence = threshold →
      (processItem threshold item (some best, alts)).item.status = "matched" ∧
      (processItem threshold item (some best, alts)).reviewEntry = none) ∧
    (best.confidence < threshold →
      (processItem threshold item (some best, alts)).item.status = "needs_review" ∧
      (processItem threshold item (some best, alts)).item.reviewReason
        = some (lowConfReason best.confidence)) ∧
    ((processItem threshold item (some best, alts)).item.status = "needs_review"
      ↔ best.confidence < threshold) := by
  refine ⟨rfl, fun he => ?_, fun hl => ?_, ?_⟩
  · have hnl : ¬ best.confidence < threshold := by rw [he]; exact lt_irrefl _
    rw [processItem_status_some, processItem_reviewEntry_some]
    simp [hnl]
  · rw [processItem_status_some, processItem_reviewReason_some]
    simp [hl]
  · rw [processItem_status_some]
    by_cases hc : best.confidence < threshold <;> simp [hc]

/-! ## C3: search-failure behaviour -/

/-- Counterexample to C3 as stated.  The claim asserts that an exception in
the exact/fuzzy catalog search is treated as "no candidates" and the semantic
tier is tried, so that matching never raises.  In the source the call at
`orchestrator.py:194` is not guarded by `try/except` (only the semantic call
is), so a failing exact/fuzzy search makes the whole match raise: on a
concrete item with a part number, a failing store and a healthy semantic
search, the outcome is the propagated error, not a `best = None` result. -/
theorem search_failure_counterexample :
    matchOneItem (fun _ => Except.error "store unavailable") (fun _ => Except.ok [])
        true 1
        (parsedToBomItem 0
          { lineNumber := 1, partNumberRaw := some "X1", descriptionRaw := some "cap"
            quantity := 2, unitOfMeasure := "EA" })
      = Except.error "store unavailable" ∧
    (matchOneItem (fun _ => Except.error "store unavailable") (fun _ => Except.ok [])
        true 1
        (parsedToBomItem 0
          { lineNumber := 1, partNumberRaw := some "X1", descriptionRaw := some "cap"
            quantity := 2, unitOfMeasure := "EA" })).isOk = false :=
  ⟨rfl, rfl⟩

/-- C3 (amended).  Only the semantic tier degrades on failure: a semantic
search that raises is treated exactly as one returning no candidates; when
the exact/fuzzy search returns normally the match never raises; and on total
failure (no candidates anywhere) the outcome is the `best = None` path,
which marks the item `needs_review` with reason `"No supplier match found"`.
An exception of the exact/fuzzy search itself, however, propagates (see the
counterexample). -/
theorem search_failure_degradation (l : List Candidate) (e : String) (openaiKeySet : Bool)
    (threshold : ℚ) (item : BomItem) :
    (matchOneItem (fun _ => Except.ok l) (fun _ => Except.error e) openaiKeySet threshold item
      = matchOneItem (fun _ => Except.ok l) (fun _ => Except.ok ([] : List Candidate))
          openaiKeySet threshold item) ∧
    (∃ out, matchOneItem (fun _ => Except.ok l) (fun _ => Except.error e)
        openaiKeySet threshold item = Except.ok out) ∧
    (l = [] →
      matchOneItem (fun _ => Except.ok l) (fun _ => Except.error e) openaiKeySet threshold item
        = Except.ok (processItem threshold item (none, [])) ∧
      (processItem threshold item (none, [])).item.status = "needs_review" ∧
      (processItem threshold item (none, [])).item.reviewReason
        = some "No supplier match found") := by
  refine ⟨?_, ?_, ?_⟩
  · unfold matchOneItem selectMatch
    rcases item.partNumberRaw with _ | pn
    · cases hb : ((none : Option Candidate).isNone && truthyStr item.descriptionRaw
        && openaiKeySet) <;> simp [Except.bind, hb]
    · by_cases hpn : pn == ""
      · simp only [hpn, if_pos]
        cases hb : ((none : Option Candidate).isNone && truthyStr item.descriptionRaw
          && openaiKeySet) <;> simp [Except.bind, hb]
      · simp only [hpn, if_neg, Bool.not_eq_true, Except.map]
        cases hb : ((l.head?).isNone && truthyStr item.descriptionRaw && openaiKeySet) <;>
          simp [Except.bind, hb]
  · unfold matchOneItem selectMatch
    rcases item.partNumberRaw with _ | pn
    · cases hb : ((none : Option Candidate).isNone && truthyStr item.descriptionRaw
        && openaiKeySet) <;> simp [Except.bind, hb, Except.map]
    · by_cases hpn : pn == ""
      · simp only [hpn, if_pos]
        cases hb : ((none : Option Candidate).isNone && truthyStr item.descriptionRaw
          && openaiKeySet) <;> simp [Except.bind, hb, Except.map]
      · simp only [hpn, if_neg, Bool.not_eq_true, Except.map]
        cases hb : ((l.head?).isNone && truthyStr item.descriptionRaw && openaiKeySet) <;>
          simp [Except.bind, hb, Except.map]
  · rintro rfl
    refine ⟨?_, rfl, rfl⟩
    unfold matchOneItem selectMatch
    rcases item.partNumberRaw with _ | pn
    · cases hb : ((none : Option Candidate).isNone && truthyStr item.descriptionRaw
        && openaiKeySet) <;> simp [Except.bind, hb, Except.map]
    · by_cases hpn : pn == ""
      · simp only [hpn, if_pos]
        cases hb : ((none : Option Candidate).isNone && truthyStr item.descriptionRaw
          && openaiKeySet) <;> simp [Except.bind, hb, Except.map]
      · simp only [hpn, if_neg, Bool.not_eq_true, Except.map]
        cases hb : ((([] : List Candidate).head?).isNone && truthyStr item.descriptionRaw
          && openaiKeySet) <;> simp [Except.bind, hb, Except.map]

/-! ## C7: match-result invariant -/

theorem nodup_filter_append_map {α β : Type} [DecidableEq β] (rows : List α) (f : α → β)
    (p q : α → Bool) (hpq : ∀ r, ¬(p r = true ∧ q r = true))
    (h : (rows.map f).Nodup) :
    (((rows.filter p).map f) ++ ((rows.filter q).map f)).Nodup := by
  rw [List.nodup_append]
  refine ⟨List.Nodup.sublist ((rows.filter_sublist).map f) h,
          List.Nodup.sublist ((rows.filter_sublist).map f) h, ?_⟩
  intro a hp hq
  obtain ⟨r1, hr1, rfl⟩ := List.mem_map.mp hp
  obtain ⟨r2, hr2, he⟩ := List.mem_map.mp hq
  obtain ⟨hr1m, hp1⟩ := List.mem_filter.mp hr1
  obtain ⟨hr2m, hq2⟩ := List.mem_filter.mp hr2
  have : r2 = r1 := List.inj_on_of_nodup_map h hr2m hr1m he
  exact hpq r1 ⟨hp1, this ▸ hq2⟩

/-- The exact/fuzzy search returns pairwise distinct candidates whenever the
catalog's `SupplierPart` ids are pairwise distinct (they are a primary key). -/
theorem search_matches_nodup (catalog : List CatalogRow) (pn : String) (org : ℕ)
    (h : (catalog.map (fun r => r.spId)).Nodup) :
    (search_supplier_catalog_impl catalog pn org).matchesList.Nodup := by
  set pnN := normalizePN pn
  set rows := catalog.filter (isActiveOrgRow org) with hrows
  have hrowsn : (rows.map (fun r => r.spId)).Nodup :=
    List.Nodup.sublist ((catalog.filter_sublist).map _) h
  have hids : ((((rows.filter (fun r => isExactRow pnN r)).map (rowCandidate 1 "exact")) ++
      ((rows.filter (fun r => !isExactRow pnN r && isFuzzyRow pnN r)).map
        (rowCandidate 0.85 "fuzzy"))).map (fun c => c.supplierPartId)).Nodup := by
    rw [List.map_append, List.map_map, List.map_map]
    exact nodup_filter_append_map rows (fun r => r.spId) _ _
      (by intro r ⟨h1, h2⟩
          rw [Bool.and_eq_true, Bool.not_eq_true'] at h2
          exact absurd h1 (by simp [h2.1]))
      hrowsn
  have hnodup := hids.of_map
  exact List.Nodup.sublist (List.take_sublist _ _) ((sortCandidates_perm _).symm.nodup hnodup)

/-- Invariant of the semantic accumulation loop: with distinct `SupplierPart`
ids in the catalog and distinct part ids in the remaining query rows, the
collected candidates keep distinct `SupplierPart` ids, and each one stems
from a catalog row matching its part. -/
theorem semLoop_nodup (catalog : List CatalogRow) (minSim : ℚ) (topK : ℕ)
    (hcat : (catalog.map (fun r => r.spId)).Nodup) :
    ∀ (rem : List (PartRow × ℚ)) (acc : List Candidate),
    (rem.map (fun pq => pq.1.partId)).Nodup →
    ((acc.map (fun c => c.supplierPartId)).Nodup ∧
      (∀ c ∈ acc, ∃ r ∈ catalog, c.supplierPartId = r.spId ∧ c.partId = r.partId)) →
    (∀ c ∈ acc, ∀ pq ∈ rem, c.partId ≠ pq.1.partId) →
    ((semLoop catalog minSim topK rem acc).map (fun c => c.supplierPartId)).Nodup := by
  intro rem
  induction rem with
  | nil => intro acc _ hacc _; simpa [semLoop] using hacc.1
  | cons hd rest ih =>
    intro acc hrem hacc hdisj
    obtain ⟨part, dist⟩ := hd
    rw [List.map_cons, List.nodup_cons] at hrem
    by_cases hsim : (1 - dist : ℚ) < minSim
    · rw [semLoop, if_pos hsim]
      exact ih acc hrem.2 hacc (fun c hc pq hpq => hdisj c hc pq (List.mem_cons_of_mem _ hpq))
    · rw [semLoop, if_neg hsim]
      set batch := (supplierOptionsFor catalog part).map (semCandidate part (1 - dist))
        with hbatch
      have hbatchn : (batch.map (fun c => c.supplierPartId)).Nodup := by
        rw [hbatch, List.map_map]
        exact List.Nodup.sublist ((catalog.filter_sublist).map _) hcat
      have hbatchsrc : ∀ c ∈ batch, ∃ r ∈ catalog, c.supplierPartId = r.spId ∧
          c.partId = r.partId := by
        intro c hc
        obtain ⟨r, hr, rfl⟩ := List.mem_map.mp hc
        obtain ⟨hrm, hcond⟩ := List.mem_filter.mp hr
        rw [Bool.and_eq_true] at hcond
        have hpid : r.partId = part.partId := by simpa using hcond.1
        exact ⟨r, hrm, rfl, by simp [semCandidate, hpid]⟩
      have hacc2n : ((acc ++ batch).map (fun c => c.supplierPartId)).Nodup := by
        rw [List.map_append, List.nodup_append]
        refine ⟨hacc.1, hbatchn, ?_⟩
        intro a ha hb
        obtain ⟨c1, hc1, rfl⟩ := List.mem_map.mp ha
        obtain ⟨c2, hc2, he⟩ := List.mem_map.mp hb
        obtain ⟨r1, hr1, hid1, hpid1⟩ := hacc.2 c1 hc1
        obtain ⟨r2, hr2, hid2, hpid2⟩ := hbatchsrc c2 hc2
        have : r2 = r1 := List.inj_on_of_nodup_map hcat hr2 hr1 (by
          rw [← hid1, ← hid2, he])
        have hc2part : c2.partId = part.partId := by
          obtain ⟨r', hr', rfl⟩ := List.mem_map.mp hc2
          simp [semCandidate]
        exact hdisj c1 hc1 (part, dist) (List.mem_cons_self _ _)
          (by rw [hpid1, ← this, ← hpid2, hc2part])
      have hacc2src : ∀ c ∈ acc ++ batch, ∃ r ∈ catalog, c.supplierPartId = r.spId ∧
          c.partId = r.partId := by
        intro c hc
        rcases List.mem_append.mp hc with hc | hc
        · exact hacc.2 c hc
        · exact hbatchsrc c hc
      by_cases hlen : topK ≤ (acc ++ batch).length
      · rw [if_pos hlen]; exact hacc2n
      · rw [if_neg hlen]
        refine ih (acc ++ batch) hrem.2 ⟨hacc2n, hacc2src⟩ ?_
        intro c hc pq hpq
        rcases List.mem_append.mp hc with hc | hc
        · exact hdisj c hc pq (List.mem_cons_of_mem _ hpq)
        · obtain ⟨r', hr', rfl⟩ := List.mem_map.mp hc
          have : (semCandidate part (1 - dist) r').partId = part.partId := by
            simp [semCandidate]
          rw [this]
          intro he
          exact hrem.1 (by
            rw [he]
            exact List.mem_map.mpr ⟨pq, hpq, rfl⟩)

/-- The semantic search returns pairwise distinct candidates whenever the
catalog's `SupplierPart` ids and the similarity query's part ids are pairwise
distinct (both are primary keys). -/
theorem semantic_matches_nodup (catalog : List CatalogRow) (queryResults : List (PartRow × ℚ))
    (desc : String) (topK : ℕ) (minSim : ℚ)
    (hcat : (catalog.map (fun r => r.spId)).Nodup)
    (hparts : (queryResults.map (fun pq => pq.1.partId)).Nodup) :
    (semantic_part_search_impl catalog queryResults desc topK minSim).matchesList.Nodup := by
  have htake : ((queryResults.take (topK * 2)).map (fun pq => pq.1.partId)).Nodup :=
    List.Nodup.sublist ((List.take_sublist _ _).map _) hparts
  have hloop := semLoop_nodup catalog minSim topK hcat (queryResults.take (topK * 2)) []
    htake (by simp) (by simp)
  exact List.Nodup.sublist (List.take_sublist _ _) ((sortCandidates_perm _).symm.nodup hloop.of_map)

theorem head_not_mem_alternatives {α : Type} {l : List α} {b : α}
    (h : l.Nodup) (hb : l.head? = some b) : b ∉ (l.drop 1).take 4 := by
  cases l with
  | nil => simp at hb
  | cons a tl =>
    obtain rfl : a = b := by simpa using hb
    intro hmem
    exact (List.nodup_cons.mp h).1 ((List.take_sublist _ _).subset (by simpa using hmem))

/-- C7.  Match-result invariant: for the match result the matcher builds from
either search's `matches` list (`best = matches[0]`,
`alternatives = matches[1:5]`, `orchestrator.py:195-197`, `205-207`), the
alternatives have length at most 4 and never contain the best candidate —
given that `SupplierPart` ids and `Part` ids are primary keys (pairwise
distinct in the catalog and in the similarity query result). -/
theorem match_result_invariant (catalog : List CatalogRow) (pn : String) (org : ℕ)
    (queryResults : List (PartRow × ℚ)) (desc : String) (topK : ℕ) (minSim : ℚ)
    (hcat : (catalog.map (fun r => r.spId)).Nodup)
    (hparts : (queryResults.map (fun pq => pq.1.partId)).Nodup) :
    ((((search_supplier_catalog_impl catalog pn org).matchesList.drop 1).take 4).length ≤ 4 ∧
      ∀ b, (search_supplier_catalog_impl catalog pn org).matchesList.head? = some b →
        b ∉ ((search_supplier_catalog_impl catalog pn org).matchesList.drop 1).take 4) ∧
    ((((semantic_part_search_impl catalog queryResults desc topK minSim).matchesList.drop 1).take 4).length ≤ 4 ∧
      ∀ b, (semantic_part_search_impl catalog queryResults desc topK minSim).matchesList.head? = some b →
        b ∉ ((semantic_part_search_impl catalog queryResults desc topK minSim).matchesList.drop 1).take 4) := by
  refine ⟨⟨List.length_take_le _ _, fun b hb => ?_⟩,
          ⟨List.length_take_le _ _, fun b hb => ?_⟩⟩
  · exact head_not_mem_alternatives (search_matches_nodup catalog pn org hcat) hb
  · exact head_not_mem_alternatives
      (semantic_matches_nodup catalog queryResults desc topK minSim hcat hparts) hb

/-- Witness for C7 at a concrete catalog and query result. -/
theorem match_result_invariant_witness :
    ((((search_supplier_catalog_impl
        [{ spId := 1, supplierId := 5, supplierName := "Acme", supplierCode := "AC"
           supplierStatus := "active", supplierOrgId := 1, supplierLeadTimeDays := none
           spLeadTimeDays := none, partId := 10, partNumber := some "ABC123"
           supplierPartNumber := some "SUP1", partDescription := some "widget"
           unitPrice := none, minOrderQty := none, isPreferred := false }]
        "ABC-123" 1).matchesList.drop 1).take 4).length ≤ 4 ∧
      ∀ b, (search_supplier_catalog_impl
        [{ spId := 1, supplierId := 5, supplierName := "Acme", supplierCode := "AC"
           supplierStatus := "active", supplierOrgId := 1, supplierLeadTimeDays := none
           spLeadTimeDays := none, partId := 10, partNumber := some "ABC123"
           supplierPartNumber := some "SUP1", partDescription := some "widget"
           unitPrice := none, minOrderQty := none, isPreferred := false }]
        "ABC-123" 1).matchesList.head? = some b →
        b ∉ ((search_supplier_catalog_impl
        [{ spId := 1, supplierId := 5, supplierName := "Acme", supplierCode := "AC"
           supplierStatus := "active", supplierOrgId := 1, supplierLeadTimeDays := none
           spLeadTimeDays := none, partId := 10, partNumber := some "ABC123"
           supplierPartNumber := some "SUP1", partDescription := some "widget"
           unitPrice := none, minOrderQty := none, isPreferred := false }]
        "ABC-123" 1).matchesList.drop 1).take 4) ∧
    ((((semantic_part_search_impl
        [{ spId := 1, supplierId := 5, supplierName := "Acme", supplierCode := "AC"
           supplierStatus := "active", supplierOrgId := 1, supplierLeadTimeDays := none
           spLeadTimeDays := none, partId := 10, partNumber := some "ABC123"
           supplierPartNumber := some "SUP1", partDescription := some "widget"
           unitPrice := none, minOrderQty := none, isPreferred := false }]
        [] "10uF capacitor" 5 0.5).matchesList.drop 1).take 4).length ≤ 4 ∧
      ∀ b, (semantic_part_search_impl
        [{ spId := 1, supplierId := 5, supplierName := "Acme", supplierCode := "AC"
           supplierStatus := "active", supplierOrgId := 1, supplierLeadTimeDays := none
           spLeadTimeDays := none, partId := 10, partNumber := some "ABC123"
           supplierPartNumber := some "SUP1", partDescription := some "widget"
           unitPrice := none, minOrderQty := none, isPreferred := false }]
        [] "10uF capacitor" 5 0.5).matchesList.head? = some b →
        b ∉ ((semantic_part_search_impl
        [{ spId := 1, supplierId := 5, supplierName := "Acme", supplierCode := "AC"
           supplierStatus := "active", supplierOrgId := 1, supplierLeadTimeDays := none
           spLeadTimeDays := none, partId := 10, partNumber := some "ABC123"
           supplierPartNumber := some "SUP1", partDescription := some "widget"
           unitPrice := none, minOrderQty := none, isPreferred := false }]
        [] "10uF capacitor" 5 0.5).matchesList.drop 1).take 4) :=
  match_result_invariant _ "ABC-123" 1 [] "10uF capacitor" 5 0.5 (by decide) (by decide)

/-! ## C10: zero price sorts as absent -/

/-- C10.  In the sort key shared by both searches
(`x["unit_price"] or 9999999`), a missing and a zero unit price are both the
sentinel 9999999, so among candidates with equal confidence and equal
preferred flag a zero-priced candidate sorts after every candidate with a
positive price below the sentinel: it precedes in no sorted output. -/
theorem zero_price_sorts_as_absent (a b : Candidate) (p : ℚ) (L l₁ l₂ : List Candidate)
    (h1 : a.confidence = b.confidence) (h2 : a.isPreferred = b.isPreferred)
    (h3 : a.unitPrice = some p) (h4 : 0 < p) (h5 : p < 9999999)
    (h6 : b.unitPrice = none ∨ b.unitPrice = some 0) :
    priceKey b.unitPrice = 9999999 ∧ priceKey (some 0) = priceKey none ∧
    candLE a b ∧ ¬ candLE b a ∧
    (sortCandidates L = l₁ ++ b :: l₂ → a ∈ L → a ∈ l₁) := by
  have hpb : priceKey b.unitPrice = 9999999 := by
    rcases h6 with h | h <;> rw [h] <;> simp [priceKey]
  have hpa : priceKey a.unitPrice = p := by
    rw [h3]
    simp [priceKey, ne_of_gt h4]
  have hle : candLE a b :=
    Or.inr ⟨by rw [h1], Or.inr ⟨by rw [h2], by rw [hpa, hpb]; exact le_of_lt h5⟩⟩
  have hnle : ¬ candLE b a := by
    rintro (h | ⟨_, h | ⟨_, h⟩⟩)
    · rw [h1] at h; exact lt_irrefl _ h
    · rw [h2] at h; exact lt_irrefl _ h
    · rw [hpa, hpb] at h; exact absurd h5 (not_lt.mpr h)
  have hab : a ≠ b := by
    intro he
    rw [he] at h3
    rcases h6 with h | h <;> rw [h] at h3
    · exact Option.noConfusion h3
    · exact absurd (Option.some_injective _ h3) h4.ne
  refine ⟨hpb, by simp [priceKey], hle, hnle, fun hsort haL => ?_⟩
  have hmem : a ∈ l₁ ++ b :: l₂ := hsort ▸ mem_sortCandidates.mpr haL
  have hsorted : List.Sorted candLE (l₁ ++ b :: l₂) := hsort ▸ sortCandidates_sorted L
  rcases List.mem_append.mp hmem with h | h
  · exact h
  · rcases List.mem_cons.mp h with rfl | h
    · exact absurd rfl hab
    · have hsorted2 : List.Sorted candLE (b :: l₂) :=
        hsorted.sublist (List.sublist_append_right l₁ _)
      exact absurd ((List.sorted_cons.mp hsorted2).1 a h) hnle

/-- Witness for C10 at two concrete candidates (prices 5 and 0) and the empty
list. -/
theorem zero_price_sorts_as_absent_witness :
    priceKey (Candidate.unitPrice
      { supplierId := 9, supplierName := "B", supplierCode := "B"
        supplierPartId := 2, partId := 2, partNumber := none
        supplierPartNumber := none, description := none, unitPrice := some 0
        leadTimeDays := none, minOrderQty := none, isPreferred := false
        confidence := 1, matchMethod := "exact" }) = 9999999 ∧
    priceKey (some 0) = priceKey none ∧
    candLE
      { supplierId := 5, supplierName := "A", supplierCode := "A"
        supplierPartId := 1, partId := 1, partNumber := none
        supplierPartNumber := none, description := none, unitPrice := some 5
        leadTimeDays := none, minOrderQty := none, isPreferred := false
        confidence := 1, matchMethod := "exact" }
      { supplierId := 9, supplierName := "B", supplierCode := "B"
        supplierPartId := 2, partId := 2, partNumber := none
        supplierPartNumber := none, description := none, unitPrice := some 0
        leadTimeDays := none, minOrderQty := none, isPreferred := false
        confidence := 1, matchMethod := "exact" } ∧
    ¬ candLE
      { supplierId := 9, supplierName := "B", supplierCode := "B"
        supplierPartId := 2, partId := 2, partNumber := none
        supplierPartNumber := none, description := none, unitPrice := some 0
        leadTimeDays := none, minOrderQty := none, isPreferred := false
        confidence := 1, matchMethod := "exact" }
      { supplierId := 5, supplierName := "A", supplierCode := "A"
        supplierPartId := 1, partId := 1, partNumber := none
        supplierPartNumber := none, description := none, unitPrice := some 5
        leadTimeDays := none, minOrderQty := none, isPreferred := false
        confidence := 1, matchMethod := "exact" } ∧
    (sortCandidates [] = [] ++
      { supplierId := 9, supplierName := "B", supplierCode := "B"
        supplierPartId := 2, partId := 2, partNumber := none
        supplierPartNumber := none, description := none, unitPrice := some 0
        leadTimeDays := none, minOrderQty := none, isPreferred := false
        confidence := 1, matchMethod := "exact" } :: [] →
      { supplierId := 5, supplierName := "A", supplierCode := "A"
        supplierPartId := 1, partId := 1, partNumber := none
        supplierPartNumber := none, description := none, unitPrice := some 5
        leadTimeDays := none, minOrderQty := none, isPreferred := false
        confidence := 1, matchMethod := "exact" } ∈ ([] : List Candidate) →
      { supplierId := 5, supplierName := "A", supplierCode := "A"
        supplierPartId := 1, partId := 1, partNumber := none
        supplierPartNumber := none, description := none, unitPrice := some 5
        leadTimeDays := none, minOrderQty := none, isPreferred := false
        confidence := 1, matchMethod := "exact" } ∈ ([] : List Candidate)) :=
  zero_price_sorts_as_absent _ _ 5 [] [] [] rfl rfl rfl (by decide) (by decide) (Or.inr rfl)

/-! ## C8: grouping by supplier -/

theorem groupOf_insertGrouped_same (g : List (ℕ × List POItemIn)) (k : ℕ) (v : POItemIn) :
    groupOf (insertGrouped g k v) k = groupOf g k ++ [v] := by
  induction g with
  | nil => simp [insertGrouped, groupOf]
  | cons hd rest ih =>
    obtain ⟨k', vs⟩ := hd
    by_cases hk : k' == k
    · simp [insertGrouped, hk, groupOf, List.find?]
    · simp only [insertGrouped, hk, if_neg, Bool.not_eq_true]
      simp only [groupOf, List.find?, hk]
      exact ih

theorem groupOf_insertGrouped_ne (g : List (ℕ × List POItemIn)) (k : ℕ) (v : POItemIn)
    (sid : ℕ) (h : sid ≠ k) : groupOf (insertGrouped g k v) sid = groupOf g sid := by
  have hks : (k == sid) = false := beq_eq_false_iff_ne.mpr (Ne.symm h)
  induction g with
  | nil => simp [insertGrouped, groupOf, List.find?, hks]
  | cons hd rest ih =>
    obtain ⟨k', vs⟩ := hd
    by_cases hk : k' == k
    · have hkk : k' = k := beq_iff_eq.mp hk
      subst hkk
      simp [insertGrouped, groupOf, List.find?, hks]
    · by_cases hs : k' == sid
      · simp [insertGrouped, hk, groupOf, List.find?, hs]
      · simp only [insertGrouped, hk, if_neg, Bool.not_eq_true]
        simp only [groupOf, List.find?, hs]
        exact ih

theorem groupOf_foldl (items : List GItem) (sid : ℕ) (hsid : sid ≠ 0) :
    ∀ acc : List (ℕ × List POItemIn),
    groupOf (items.foldl groupStep acc) sid
      = groupOf acc sid
        ++ (items.filter (fun it => it.matchedSupplierId == some sid)).map toPOItemIn := by
  induction items with
  | nil => intro acc; simp
  | cons it rest ih =>
    intro acc
    rw [List.foldl_cons]
    rcases hms : it.matchedSupplierId with _ | s
    · have hstep : groupStep acc it = acc := by simp [groupStep, hms]
      have hcond : (it.matchedSupplierId == some sid) = false := by simp [hms]
      rw [hstep, List.filter_cons_of_neg (by simp [hcond]), ih]
    · by_cases hz : s == 0
      · have hs0 : s = 0 := beq_iff_eq.mp hz
        have hstep : groupStep acc it = acc := by simp [groupStep, hms, hz]
        have hcond : (it.matchedSupplierId == some sid) = false := by
          simp [hms, hs0, Ne.symm hsid]
        rw [hstep, List.filter_cons_of_neg (by simp [hcond]), ih]
      · have hstep : groupStep acc it = insertGrouped acc s (toPOItemIn it) := by
          simp [groupStep, hms, hz]
        by_cases hss : s = sid
        · subst hss
          have hcond : (it.matchedSupplierId == some s) = true := by simp [hms]
          rw [hstep, List.filter_cons_of_pos (by simp [hcond]), ih, List.map_cons,
            groupOf_insertGrouped_same]
          simp
        · have hcond : (it.matchedSupplierId == some sid) = false := by simp [hms, hss]
          rw [hstep, List.filter_cons_of_neg (by simp [hcond]), ih,
            groupOf_insertGrouped_ne _ _ _ _ (Ne.symm hss)]

theorem insertGrouped_nonempty (g : List (ℕ × List POItemIn)) (k : ℕ) (v : POItemIn)
    (h : ∀ gp ∈ g, gp.2 ≠ []) : ∀ gp ∈ insertGrouped g k v, gp.2 ≠ [] := by
  induction g with
  | nil => intro gp hgp; simp [insertGrouped] at hgp; simp [hgp]
  | cons hd rest ih =>
    obtain ⟨k', vs⟩ := hd
    intro gp hgp
    by_cases hk : k' == k
    · simp only [insertGrouped, hk, if_pos] at hgp
      rcases List.mem_cons.mp hgp with rfl | hgp
      · simp
      · exact h gp (List.mem_cons_of_mem _ hgp)
    · simp only [insertGrouped, hk, if_neg, Bool.not_eq_true] at hgp
      rcases List.mem_cons.mp hgp with rfl | hgp
      · exact h _ (List.mem_cons_self _ _)
      · exact ih (fun p hp => h p (List.mem_cons_of_mem _ hp)) gp hgp

theorem foldl_groups_nonempty (items : List GItem) :
    ∀ acc : List (ℕ × List POItemIn), (∀ gp ∈ acc, gp.2 ≠ []) →
    ∀ gp ∈ items.foldl groupStep acc, gp.2 ≠ [] := by
  induction items with
  | nil => intro acc h; simpa using h
  | cons it rest ih =>
    intro acc h
    rw [List.foldl_cons]
    refine ih (groupStep acc it) ?_
    rcases hms : it.matchedSupplierId with _ | s
    · simpa [groupStep, hms] using h
    · by_cases hz : s == 0
      · simpa [groupStep, hms, hz] using h
      · simp only [groupStep, hms, hz, if_neg, Bool.not_eq_true]
        exact insertGrouped_nonempty acc s (toPOItemIn it) h

theorem insertGrouped_keys (g : List (ℕ × List POItemIn)) (k : ℕ) (v : POItemIn) :
    (insertGrouped g k v).map Prod.fst
      = if k ∈ g.map Prod.fst then g.map Prod.fst else g.map Prod.fst ++ [k] := by
  induction g with
  | nil => simp [insertGrouped]
  | cons hd rest ih =>
    obtain ⟨k', vs⟩ := hd
    by_cases hk : k' == k
    · have : k = k' := (beq_iff_eq.mp hk).symm
      subst this
      simp [insertGrouped, List.mem_cons]
    · have hne : k ≠ k' := fun hc => hk (by simp [hc])
      simp only [insertGrouped, hk, if_neg, Bool.not_eq_true, List.map_cons, ih]
      by_cases hmem : k ∈ rest.map Prod.fst
      · simp [hmem, hne]
      · simp [hmem, hne]

theorem foldl_keys_nodup (items : List GItem) :
    ∀ acc : List (ℕ × List POItemIn), ((acc.map Prod.fst).Nodup) →
    (((items.foldl groupStep acc).map Prod.fst)).Nodup := by
  induction items with
  | nil => intro acc h; simpa using h
  | cons it rest ih =>
    intro acc h
    rw [List.foldl_cons]
    refine ih (groupStep acc it) ?_
    rcases hms : it.matchedSupplierId with _ | s
    · simpa [groupStep, hms] using h
    · by_cases hz : s == 0
      · simpa [groupStep, hms, hz] using h
      · simp only [groupStep, hms, hz, if_neg, Bool.not_eq_true]
        rw [insertGrouped_keys]
        by_cases hmem : s ∈ acc.map Prod.fst
        · simpa [hmem] using h
        · rw [if_neg hmem, List.nodup_append]
          exact ⟨h, List.nodup_singleton s, by
            intro a ha hb
            rw [List.mem_singleton] at hb
            exact hmem (hb ▸ ha)⟩

theorem groupOf_eq_of_mem (g : List (ℕ × List POItemIn))
    (hnd : (g.map Prod.fst).Nodup) : ∀ gp ∈ g, groupOf g gp.1 = gp.2 := by
  induction g with
  | nil => intro gp hgp; simp at hgp
  | cons hd rest ih =>
    obtain ⟨k, vs⟩ := hd
    rw [List.map_cons, List.nodup_cons] at hnd
    intro gp hgp
    rcases List.mem_cons.mp hgp with rfl | hgp
    · simp [groupOf, List.find?]
    · have hne : ¬ (k == gp.1) = true := by
        intro hc
        exact hnd.1 ((beq_iff_eq.mp hc) ▸ List.mem_map.mpr ⟨gp, hgp, rfl⟩)
      simp only [groupOf, List.find?, hne]
      exact ih hnd.2 gp hgp

theorem foldl_keys_ne_zero (items : List GItem) :
    ∀ acc : List (ℕ × List POItemIn), (∀ k ∈ acc.map Prod.fst, k ≠ 0) →
    ∀ k ∈ (items.foldl groupStep acc).map Prod.fst, k ≠ 0 := by
  induction items with
  | nil => intro acc h; simpa using h
  | cons it rest ih =>
    intro acc h
    rw [List.foldl_cons]
    refine ih (groupStep acc it) ?_
    rcases hms : it.matchedSupplierId with _ | s
    · simpa [groupStep, hms] using h
    · by_cases hz : s == 0
      · simpa [groupStep, hms, hz] using h
      · simp only [groupStep, hms, hz, if_neg, Bool.not_eq_true]
        rw [insertGrouped_keys]
        by_cases hmem : s ∈ acc.map Prod.fst
        · rw [if_pos hmem]; exact h
        · rw [if_neg hmem]
          intro k hk
          rcases List.mem_append.mp hk with hk | hk
          · exact h k hk
          · rw [List.mem_singleton] at hk
            subst hk
            intro hc
            exact hz (by simp [hc])

/-- C8.  Grouping partitions the input by resolved supplier id: every emitted
group is nonempty, group keys are pairwise distinct and nonzero, a supplier's
group is exactly the input items resolved to it in input order (so items
without a resolved supplier are skipped and order is stable), and the spec's
scenario — two items at supplier 5 and one at supplier 9, in that input
order — yields exactly two groups, of sizes 2 and 1. -/
theorem grouping_partition (items : List GItem) (i5a i5b i9 : GItem)
    (h5a : i5a.matchedSupplierId = some 5) (h5b : i5b.matchedSupplierId = some 5)
    (h9 : i9.matchedSupplierId = some 9) :
    (∀ gp ∈ group_items_by_supplier_impl items, gp.2 ≠ []) ∧
    (((group_items_by_supplier_impl items).map Prod.fst).Nodup) ∧
    (∀ sid, sid ≠ 0 → groupOf (group_items_by_supplier_impl items) sid
      = (items.filter (fun it => it.matchedSupplierId == some sid)).map toPOItemIn) ∧
    (∀ gp ∈ group_items_by_supplier_impl items,
      gp.2 = (items.filter (fun it => it.matchedSupplierId == some gp.1)).map toPOItemIn) ∧
    ((group_items_by_supplier_impl [i5a, i5b, i9]).map Prod.fst = [5, 9] ∧
      groupOf (group_items_by_supplier_impl [i5a, i5b, i9]) 5
        = [toPOItemIn i5a, toPOItemIn i5b] ∧
      groupOf (group_items_by_supplier_impl [i5a, i5b, i9]) 9 = [toPOItemIn i9]) := by
  have hnodup : ((group_items_by_supplier_impl items).map Prod.fst).Nodup :=
    foldl_keys_nodup items [] (by simp)
  have hof : ∀ sid, sid ≠ 0 → groupOf (group_items_by_supplier_impl items) sid
      = (items.filter (fun it => it.matchedSupplierId == some sid)).map toPOItemIn := by
    intro sid hsid
    have := groupOf_foldl items sid hsid []
    simpa [group_items_by_supplier_impl, groupOf] using this
  have hne : ∀ gp ∈ group_items_by_supplier_impl items,
      gp.2 = (items.filter (fun it => it.matchedSupplierId == some gp.1)).map toPOItemIn := by
    intro gp hgp
    have hz : gp.1 ≠ 0 :=
      foldl_keys_ne_zero items [] (by simp) gp.1 (List.mem_map.mpr ⟨gp, hgp, rfl⟩)
    rw [← hof gp.1 hz]
    exact (groupOf_eq_of_mem (group_items_by_supplier_impl items) hnodup gp hgp).symm
  refine ⟨foldl_groups_nonempty items [] (by simp), hnodup, hof, hne, ?_, ?_, ?_⟩
  · simp [group_items_by_supplier_impl, groupStep, h5a, h5b, h9, insertGrouped]
  · simp [group_items_by_supplier_impl, groupStep, h5a, h5b, h9, insertGrouped, groupOf,
      List.find?]
  · simp [group_items_by_supplier_impl, groupStep, h5a, h5b, h9, insertGrouped, groupOf,
      List.find?]

/-- Witness for C8: the scenario with three concrete items (two resolved to
supplier 5, one to supplier 9) on the empty ambient item list. -/
theorem grouping_partition_witness :
    (∀ gp ∈ group_items_by_supplier_impl [], gp.2 ≠ []) ∧
    (((group_items_by_supplier_impl []).map Prod.fst).Nodup) ∧
    (∀ sid, sid ≠ 0 → groupOf (group_items_by_supplier_impl []) sid
      = (([] : List GItem).filter (fun it => it.matchedSupplierId == some sid)).map toPOItemIn) ∧
    (∀ gp ∈ group_items_by_supplier_impl [],
      gp.2 = (([] : List GItem).filter (fun it => it.matchedSupplierId == some gp.1)).map toPOItemIn) ∧
    ((group_items_by_supplier_impl
        [{ id := 1, matchedSupplierId := some 5, matchedSupplierPartId := some 11
           partId := some 21, partNumberRaw := some "P1", descriptionRaw := none
           quantity := 2, unitOfMeasure := "EA", unitCost := 3 },
         { id := 2, matchedSupplierId := some 5, matchedSupplierPartId := some 12
           partId := some 22, partNumberRaw := some "P2", descriptionRaw := none
           quantity := 1, unitOfMeasure := "EA", unitCost := 4 },
         { id := 3, matchedSupplierId := some 9, matchedSupplierPartId := some 13
           partId := some 23, partNumberRaw := some "P3", descriptionRaw := none
           quantity := 7, unitOfMeasure := "EA", unitCost := 5 }]).map Prod.fst = [5, 9] ∧
      groupOf (group_items_by_supplier_impl
        [{ id := 1, matchedSupplierId := some 5, matchedSupplierPartId := some 11
           partId := some 21, partNumberRaw := some "P1", descriptionRaw := none
           quantity := 2, unitOfMeasure := "EA", unitCost := 3 },
         { id := 2, matchedSupplierId := some 5, matchedSupplierPartId := some 12
           partId := some 22, partNumberRaw := some "P2", descriptionRaw := none
           quantity := 1, unitOfMeasure := "EA", unitCost := 4 },
         { id := 3, matchedSupplierId := some 9, matchedSupplierPartId := some 13
           partId := some 23, partNumberRaw := some "P3", descriptionRaw := none
           quantity := 7, unitOfMeasure := "EA", unitCost := 5 }]) 5
        = [toPOItemIn
            { id := 1, matchedSupplierId := some 5, matchedSupplierPartId := some 11
              partId := some 21, partNumberRaw := some "P1", descriptionRaw := none
              quantity := 2, unitOfMeasure := "EA", unitCost := 3 },
           toPOItemIn
            { id := 2, matchedSupplierId := some 5, matchedSupplierPartId := some 12
              partId := some 22, partNumberRaw := some "P2", descriptionRaw := none
              quantity := 1, unitOfMeasure := "EA", unitCost := 4 }] ∧
      groupOf (group_items_by_supplier_impl
        [{ id := 1, matchedSupplierId := some 5, matchedSupplierPartId := some 11
           partId := some 21, partNumberRaw := some "P1", descriptionRaw := none
           quantity := 2, unitOfMeasure := "EA", unitCost := 3 },
         { id := 2, matchedSupplierId := some 5, matchedSupplierPartId := some 12
           partId := some 22, partNumberRaw := some "P2", descriptionRaw := none
           quantity := 1, unitOfMeasure := "EA", unitCost := 4 },
         { id := 3, matchedSupplierId := some 9, matchedSupplierPartId := some 13
           partId := some 23, partNumberRaw := some "P3", descriptionRaw := none
           quantity := 7, unitOfMeasure := "EA", unitCost := 5 }]) 9
        = [toPOItemIn
            { id := 3, matchedSupplierId := some 9, matchedSupplierPartId := some 13
              partId := some 23, partNumberRaw := some "P3", descriptionRaw := none
              quantity := 7, unitOfMeasure := "EA", unitCost := 5 }]) :=
  grouping_partition [] _ _ _ rfl rfl rfl

/-! ## Report-stream append lemmas -/

theorem taskProgressValues_append (l1 l2 : List Report) :
    taskProgressValues (l1 ++ l2) = taskProgressValues l1 ++ taskProgressValues l2 := by
  induction l1 with
  | nil => rfl
  | cons r rs ih => cases r <;> simp [taskProgressValues, ih]

theorem bomProgressValues_append (l1 l2 : List Report) :
    bomProgressValues (l1 ++ l2) = bomProgressValues l1 ++ bomProgressValues l2 := by
  induction l1 with
  | nil => rfl
  | cons r rs ih => cases r <;> simp [bomProgressValues, ih]

theorem bomStatusValues_append (l1 l2 : List Report) :
    bomStatusValues (l1 ++ l2) = bomStatusValues l1 ++ bomStatusValues l2 := by
  induction l1 with
  | nil => rfl
  | cons r rs ih => cases r <;> simp [bomStatusValues, ih]

/-! ## C1: the run-level review branch -/

/-- The matcher always sets `needs_human_review = len(review_items) > 0`
(`orchestrator.py:282`, `289`). -/
theorem matcher_node_ok (exactSearch semSearch : String → Except String (List Candidate))
    (openaiKeySet : Bool) (threshold : ℚ) (st : RunSt) (bomItems : List BomItem)
    (out : NodeOut)
    (h : matcher_node exactSearch semSearch openaiKeySet threshold st bomItems
      = Except.ok out) :
    out.state.needsHumanReview = decide (0 < out.state.reviewItems.length) := by
  simp only [matcher_node] at h
  rcases hl : matcherLoop exactSearch semSearch openaiKeySet threshold bomItems.length
      bomItems.enum
      { reports := [], items := [], matchedItems := [], unmatchedItems := [], reviewItems := [] }
    with e | acc
  · rw [hl] at h; exact absurd h (by simp [Except.map])
  · rw [hl] at h
    simp only [Except.map] at h
    obtain rfl := Except.ok.inj h
    rfl

/-- C1.  Run-level review branch: the matcher sets `needs_human_review`
exactly when some item produced a review entry; when at least one review
entry exists, the matcher's conditional edge routes to the human-review node,
which creates one `ApprovalRequest` per flagged item and writes the single
BOM status `awaiting_review`; when none exists, the edge routes directly to
the PO generator and the remaining stages (generator, completion) never write
the status `awaiting_review`. -/
theorem run_level_review_branch (st : RunSt)
    (hn : st.needsHumanReview = decide (0 < st.reviewItems.length)) :
    (∀ exactSearch semSearch openaiKeySet threshold stPrev bomItems out,
      matcher_node exactSearch semSearch openaiKeySet threshold stPrev bomItems
          = Except.ok out →
      out.state.needsHumanReview = decide (0 < out.state.reviewItems.length)) ∧
    (st.reviewItems ≠ [] →
      should_review st = "review" ∧
      matcherRoute st = "human_review" ∧
      (human_review_node st).approvals.length = st.reviewItems.length ∧
      bomStatusValues (human_review_node st).reports = ["awaiting_review"]) ∧
    (st.reviewItems = [] →
      should_review st = "generate" ∧
      matcherRoute st = "po_generator" ∧
      (∀ (poSuccess : ℕ → Bool) (items2 : List BomItem),
        "awaiting_review" ∉
          bomStatusValues ((po_generator_node poSuccess st items2).reports
            ++ (completion_node (po_generator_node poSuccess st items2).state).2))) := by
  refine ⟨fun a b c d e f g h => matcher_node_ok a b c d e f g h, fun hne => ?_, fun he => ?_⟩
  · have hlen : 0 < st.reviewItems.length := List.length_pos.mpr hne
    have hrev : should_review st = "review" := by
      unfold should_review
      rw [hn]
      simp [hlen, List.isEmpty_iff, hne]
    refine ⟨hrev, by unfold matcherRoute; rw [hrev]; rfl, ?_, rfl⟩
    simp [human_review_node]
  · have hrev : should_review st = "generate" := by
      unfold should_review
      rw [hn, he]
      simp
    refine ⟨hrev, by unfold matcherRoute; rw [hrev]; rfl, ?_⟩
    intro poSuccess items2
    unfold po_generator_node
    by_cases hel : (items2.filter isEligibleItem).isEmpty
    · simp only [hel, if_pos]
      simp [bomStatusValues, completion_node, bomStatusValues_append]
    · simp only [hel, if_neg, Bool.not_eq_true]
      simp [bomStatusValues, completion_node, bomStatusValues_append]

/-- Witness for C1: the initial workflow state (no review items, review flag
off) routes to the generator. -/
theorem run_level_review_branch_witness :
    (∀ exactSearch semSearch openaiKeySet threshold stPrev bomItems out,
      matcher_node exactSearch semSearch openaiKeySet threshold stPrev bomItems
          = Except.ok out →
      out.state.needsHumanReview = decide (0 < out.state.reviewItems.length)) ∧
    (initialState.reviewItems ≠ [] →
      should_review initialState = "review" ∧
      matcherRoute initialState = "human_review" ∧
      (human_review_node initialState).approvals.length = initialState.reviewItems.length ∧
      bomStatusValues (human_review_node initialState).reports = ["awaiting_review"]) ∧
    (initialState.reviewItems = [] →
      should_review initialState = "generate" ∧
      matcherRoute initialState = "po_generator" ∧
      (∀ (poSuccess : ℕ → Bool) (items2 : List BomItem),
        "awaiting_review" ∉
          bomStatusValues ((po_generator_node poSuccess initialState items2).reports
            ++ (completion_node (po_generator_node poSuccess initialState items2).state).2))) :=
  run_level_review_branch initialState rfl

/-! ## C2: decode-error behaviour -/

/-- Counterexample to C2 as stated.  On a decode error (here: unsupported
file type `"pdf"`) the run does end with zero persisted items, but the
reported progress is 10 — `parser_node` reports 10% before parsing
(`orchestrator.py:95-96`) — not 0, and no `failed` status is ever written:
the error edge routes to END (`orchestrator.py:489-490`) and the BOM record
is left at status `parsing` (`failed` is only written by the exception
handler of `process_bom_workflow`, which a decode error never reaches,
because the parsers return error dictionaries instead of raising). -/
theorem decode_error_counterexample :
    (workflowRun "pdf" { success := true, error := none, items := [] }
        { success := true, error := none, items := [] }
        (fun _ => Except.ok []) (fun _ => Except.ok []) false 1 (fun _ => false)
        initialState).map
      (fun o => (o.state.progress, o.state.error, o.items.length,
        bomStatusValues o.reports, taskProgressValues o.reports, bomProgressValues o.reports))
      = Except.ok (10, some "Unsupported file type: pdf", 0, ["parsing"], [10], [10]) ∧
    ((10 : ℚ) ≠ 0) ∧ "failed" ∉ ["parsing"] :=
  ⟨rfl, by decide, by decide⟩

/-- C2 (amended).  Decode-error atomicity: when the Parser reports a decode
error (with a nonempty message, as the source's error strings are), zero
`BOMItem` rows are persisted, the error edge fires so the workflow ends
immediately after the parser without running any later stage, the state's
error is recorded — but the reported progress is 10 (reported before parsing
starts), the run's status stays `parsing`, and no `failed` status is written. -/
theorem decode_error_atomicity (fileType : String) (excelRes csvRes : ParseOutcome)
    (st0 : RunSt)
    (h : (parseByType fileType excelRes csvRes).success = false)
    (hmsg : ((parseByType fileType excelRes csvRes).error).getD "Failed to parse BOM" ≠ "") :
    (parser_node fileType excelRes csvRes st0).items = [] ∧
    check_error (parser_node fileType excelRes csvRes st0).state = "error" ∧
    (parser_node fileType excelRes csvRes st0).state.error
      = some (((parseByType fileType excelRes csvRes).error).getD "Failed to parse BOM") ∧
    (parser_node fileType excelRes csvRes st0).state.progress = 10 ∧
    taskProgressValues (parser_node fileType excelRes csvRes st0).reports = [10] ∧
    bomProgressValues (parser_node fileType excelRes csvRes st0).reports = [10] ∧
    bomStatusValues (parser_node fileType excelRes csvRes st0).reports = ["parsing"] ∧
    (∀ exactSearch semSearch openaiKeySet threshold poSuccess,
      workflowRun fileType excelRes csvRes exactSearch semSearch openaiKeySet threshold
          poSuccess st0
        = Except.ok { state := (parser_node fileType excelRes csvRes st0).state
                      reports := (parser_node fileType excelRes csvRes st0).reports
                      items := (parser_node fileType excelRes csvRes st0).items
                      approvals := [] }) := by
  have hb : (!(parseByType fileType excelRes csvRes).success) = true := by rw [h]; rfl
  have hnode : parser_node fileType excelRes csvRes st0
      = { state := { st0 with
            error := some (((parseByType fileType excelRes csvRes).error).getD
              "Failed to parse BOM")
            parsedItems := [], currentAgent := "parser"
            currentStep := "Parse failed", progress := 10 }
          reports := [Report.task 10 "Parsing BOM file",
                      Report.bom "parsing" 10 "Reading and parsing file"]
          items := [] } := by
    unfold parser_node
    rw [if_pos hb]
  have hce : check_error (parser_node fileType excelRes csvRes st0).state = "error" := by
    rw [hnode]
    simp only [check_error]
    rw [if_neg (by simpa using hmsg)]
  refine ⟨by rw [hnode], hce, by rw [hnode], by rw [hnode], by rw [hnode]; rfl,
    by rw [hnode]; rfl, by rw [hnode]; rfl, ?_⟩
  intro exactSearch semSearch openaiKeySet threshold poSuccess
  unfold workflowRun
  rw [if_pos (by rw [hce]; rfl)]

/-- Witness for the amended C2: a run over an unsupported file type. -/
theorem decode_error_atomicity_witness :
    (parser_node "pdf" { success := true, error := none, items := [] }
      { success := true, error := none, items := [] } initialState).items = [] ∧
    check_error (parser_node "pdf" { success := true, error := none, items := [] }
      { success := true, error := none, items := [] } initialState).state = "error" ∧
    (parser_node "pdf" { success := true, error := none, items := [] }
      { success := true, error := none, items := [] } initialState).state.error
      = some (((parseByType "pdf" { success := true, error := none, items := [] }
          { success := true, error := none, items := [] }).error).getD "Failed to parse BOM") ∧
    (parser_node "pdf" { success := true, error := none, items := [] }
      { success := true, error := none, items := [] } initialState).state.progress = 10 ∧
    taskProgressValues (parser_node "pdf" { success := true, error := none, items := [] }
      { success := true, error := none, items := [] } initialState).reports = [10] ∧
    bomProgressValues (parser_node "pdf" { success := true, error := none, items := [] }
      { success := true, error := none, items := [] } initialState).reports = [10] ∧
    bomStatusValues (parser_node "pdf" { success := true, error := none, items := [] }
      { success := true, error := none, items := [] } initialState).reports = ["parsing"] ∧
    (∀ exactSearch semSearch openaiKeySet threshold poSuccess,
      workflowRun "pdf" { success := true, error := none, items := [] }
          { success := true, error := none, items := [] } exactSearch semSearch openaiKeySet
          threshold poSuccess initialState
        = Except.ok { state := (parser_node "pdf" { success := true, error := none, items := [] }
                        { success := true, error := none, items := [] } initialState).state
                      reports := (parser_node "pdf"
                        { success := true, error := none, items := [] }
                        { success := true, error := none, items := [] } initialState).reports
                      items := (parser_node "pdf" { success := true, error := none, items := [] }
                        { success := true, error := none, items := [] } initialState).items
                      approvals := [] }) :=
  decode_error_atomicity "pdf" _ _ initialState rfl (by decide)

/-! ## C9: progress monotonicity -/

theorem mem_of_getLast_opt {α : Type} {l : List α} {x : α} (h : x ∈ l.getLast?) : x ∈ l := by
  obtain ⟨hne, rfl⟩ := List.mem_getLast?_eq_getLast h
  exact List.getLast_mem hne

/-- The matcher loop writes only interpolated BOM progress values, one per
item, in index order, and no task progress value. -/
theorem matcherLoop_streams (exactSearch semSearch : String → Except String (List Candidate))
    (openaiKeySet : Bool) (threshold : ℚ) (total : ℕ) :
    ∀ (pairs : List (ℕ × BomItem)) (acc acc2 : MatcherAcc),
    matcherLoop exactSearch semSearch openaiKeySet threshold total pairs acc = Except.ok acc2 →
    bomProgressValues acc2.reports
      = bomProgressValues acc.reports
        ++ pairs.map (fun pr => 30 + (pr.1 : ℚ) / (total : ℚ) * 30) ∧
    taskProgressValues acc2.reports = taskProgressValues acc.reports := by
  intro pairs
  induction pairs with
  | nil =>
    intro acc acc2 h
    rw [matcherLoop] at h
    obtain rfl := Except.ok.inj h
    simp
  | cons pr rest ih =>
    intro acc acc2 h
    obtain ⟨idx, it⟩ := pr
    simp only [matcherLoop] at h
    rcases hmi : matchOneItem exactSearch semSearch openaiKeySet threshold it with e | o
    · rw [hmi] at h; exact absurd h (by simp)
    · rw [hmi] at h
      obtain ⟨h1, h2⟩ := ih _ _ h
      rw [h1, h2]
      constructor
      · rw [bomProgressValues_append]
        simp [bomProgressValues]
      · rw [taskProgressValues_append]
        simp [taskProgressValues]

/-- The matcher's reported streams: 30 and 60 on the task record; 30, the
per-item interpolation and 60 on the BOM record. -/
theorem matcher_node_streams (exactSearch semSearch : String → Except String (List Candidate))
    (openaiKeySet : Bool) (threshold : ℚ) (st : RunSt) (bomItems : List BomItem)
    (out : NodeOut)
    (h : matcher_node exactSearch semSearch openaiKeySet threshold st bomItems
      = Except.ok out) :
    taskProgressValues out.reports = [30, 60] ∧
    bomProgressValues out.reports
      = 30 :: (((List.range bomItems.length).map
          (fun i : ℕ => 30 + (i : ℚ) / (bomItems.length : ℚ) * 30)) ++ [60]) := by
  simp only [matcher_node] at h
  rcases hl : matcherLoop exactSearch semSearch openaiKeySet threshold bomItems.length
      bomItems.enum
      { reports := [], items := [], matchedItems := [], unmatchedItems := [], reviewItems := [] }
    with e | acc
  · rw [hl] at h; exact absurd h (by simp [Except.map])
  · rw [hl] at h
    simp only [Except.map] at h
    obtain rfl := Except.ok.inj h
    obtain ⟨h1, h2⟩ := matcherLoop_streams exactSearch semSearch openaiKeySet threshold
      bomItems.length bomItems.enum _ acc hl
    have henum : bomItems.enum.map (fun pr => 30 + ((pr.1 : ℚ)) / ((bomItems.length : ℚ)) * 30)
        = (List.range bomItems.length).map
          (fun i : ℕ => 30 + (i : ℚ) / (bomItems.length : ℚ) * 30) := by
      rw [← List.enum_map_fst bomItems, List.map_map]
      rfl
    constructor
    · show taskProgressValues (_ ++ acc.reports ++ _) = _
      rw [taskProgressValues_append, taskProgressValues_append, h2]
      simp [taskProgressValues]
    · show bomProgressValues (_ ++ acc.reports ++ _) = _
      rw [bomProgressValues_append, bomProgressValues_append, h1, henum]
      simp [bomProgressValues]

/-- The parser's reported streams on a successful parse, and that it leaves
the state's error untouched. -/
theorem parser_node_success (fileType : String) (excelRes csvRes : ParseOutcome) (st0 : RunSt)
    (h : (parseByType fileType excelRes csvRes).success = true) :
    taskProgressValues (parser_node fileType excelRes csvRes st0).reports = [10, 25] ∧
    bomProgressValues (parser_node fileType excelRes csvRes st0).reports = [10, 25, 25] ∧
    (parser_node fileType excelRes csvRes st0).state.error = st0.error := by
  unfold parser_node
  rw [if_neg (by simp [h])]
  refine ⟨?_, ?_, rfl⟩ <;> simp [taskProgressValues, bomProgressValues]

/-- Adjacent interpolated matching progress values never decrease. -/
theorem chain_le_matching_map (m : ℕ) :
    List.Chain' (· ≤ ·) ((List.range m).map (fun i : ℕ => 30 + (i : ℚ) / (m : ℚ) * 30)) := by
  refine List.Pairwise.chain' ?_
  rw [List.pairwise_map]
  refine (List.pairwise_lt_range m).imp ?_
  intro a b hab
  have hc : (a : ℚ) ≤ (b : ℚ) := by exact_mod_cast hab.le
  have : (a : ℚ) / (m : ℚ) ≤ (b : ℚ) / (m : ℚ) :=
    div_le_div_of_nonneg_right hc (by positivity)
  linarith

/-- Every interpolated matching progress value lies in `[30, 60]`. -/
theorem mem_matching_map_bounds (m : ℕ) (x : ℚ)
    (hx : x ∈ (List.range m).map (fun i : ℕ => 30 + (i : ℚ) / (m : ℚ) * 30)) :
    30 ≤ x ∧ x ≤ 60 := by
  obtain ⟨i, hi, rfl⟩ := List.mem_map.mp hx
  rw [List.mem_range] at hi
  have hm : 0 < m := lt_of_le_of_lt (Nat.zero_le i) hi
  have hd0 : (0 : ℚ) ≤ (i : ℚ) / (m : ℚ) := by positivity
  have hd1 : (i : ℚ) / (m : ℚ) ≤ 1 := by
    rw [div_le_one (by exact_mod_cast hm)]
    exact_mod_cast hi.le
  constructor <;> linarith

/-- The full reported BOM progress stream of a successful run is
non-decreasing. -/
theorem chain_le_bom_stream (m : ℕ) (tail : List ℚ)
    (htail : List.Chain' (· ≤ ·) (60 :: tail)) :
    List.Chain' (· ≤ ·) (((10 : ℚ) :: 25 :: 25 :: 30 ::
      (((List.range m).map (fun i : ℕ => 30 + (i : ℚ) / (m : ℚ) * 30)) ++ 60 :: tail))) := by
  have hshape : ((10 : ℚ) :: 25 :: 25 :: 30 ::
      (((List.range m).map (fun i : ℕ => 30 + (i : ℚ) / (m : ℚ) * 30)) ++ 60 :: tail))
      = ([(10 : ℚ), 25, 25, 30]
          ++ ((List.range m).map (fun i : ℕ => 30 + (i : ℚ) / (m : ℚ) * 30)))
        ++ (60 :: tail) := by simp
  rw [hshape]
  rw [List.chain'_append]
  refine ⟨?_, htail, ?_⟩
  · rw [List.chain'_append]
    refine ⟨by norm_num [List.chain'_cons], chain_le_matching_map m, ?_⟩
    intro x hx y hy
    obtain rfl : (30 : ℚ) = x := by simpa using hx
    exact (mem_matching_map_bounds m y (List.mem_of_mem_head? hy)).1
  · intro x hx y hy
    obtain rfl : (60 : ℚ) = y := by simpa using hy
    have hx' := mem_of_getLast_opt hx
    rcases List.mem_append.mp hx' with hx' | hx'
    · have hx4 : x = 10 ∨ x = 25 ∨ x = 25 ∨ x = 30 := by simpa using hx'
      rcases hx4 with rfl | rfl | rfl | rfl <;> norm_num
    · exact (mem_matching_map_bounds m x hx').2

/-- C9.  Progress monotonicity: for every run started on the initial state
whose parse succeeds and whose workflow invocation returns (it then reaches
completion), both reported progress streams — the task record's and the BOM
record's — are monotonically non-decreasing. -/
theorem progress_monotonicity (fileType : String) (excelRes csvRes : ParseOutcome)
    (exactSearch semSearch : String → Except String (List Candidate))
    (openaiKeySet : Bool) (threshold : ℚ) (poSuccess : ℕ → Bool) (out : RunOutput)
    (hp : (parseByType fileType excelRes csvRes).success = true)
    (h : workflowRun fileType excelRes csvRes exactSearch semSearch openaiKeySet threshold
      poSuccess initialState = Except.ok out) :
    out.state.completed = true ∧
    List.Chain' (· ≤ ·) (taskProgressValues out.reports) ∧
    List.Chain' (· ≤ ·) (bomProgressValues out.reports) := by
  obtain ⟨hpt, hpb, hperr⟩ := parser_node_success fileType excelRes csvRes initialState hp
  simp only [workflowRun] at h
  set p := parser_node fileType excelRes csvRes initialState with hpdef
  have hcc : check_error p.state = "continue" := by
    unfold check_error
    rw [hperr]
    rfl
  rw [if_neg (by rw [hcc]; simp)] at h
  rcases hm : matcher_node exactSearch semSearch openaiKeySet threshold p.state p.items
    with e | m
  · rw [hm] at h; exact absurd h (by simp [Except.bind])
  · rw [hm] at h
    simp only [Except.bind] at h
    obtain rfl := Except.ok.inj h
    obtain ⟨hmt, hmb⟩ := matcher_node_streams exactSearch semSearch openaiKeySet threshold
      p.state p.items m hm
    set AR := if matcherRoute m.state == "human_review" then
        let hr := human_review_node m.state
        (hr.state, m.reports ++ hr.reports, hr.approvals)
      else (m.state, m.reports, ([] : List ApprovalRequest)) with hARdef
    have hARt : taskProgressValues AR.2.1 = [30, 60] := by
      rw [hARdef]
      by_cases hroute : matcherRoute m.state == "human_review"
      · simp only [hroute, if_pos]
        rw [taskProgressValues_append, hmt]
        rfl
      · simp only [hroute, if_neg, Bool.not_eq_true]
        exact hmt
    have hARb : bomProgressValues AR.2.1
        = 30 :: (((List.range p.items.length).map
            (fun i : ℕ => 30 + (i : ℚ) / (p.items.length : ℚ) * 30)) ++ [60]) := by
      rw [hARdef]
      by_cases hroute : matcherRoute m.state == "human_review"
      · simp only [hroute, if_pos]
        rw [bomProgressValues_append, hmb]
        simp [human_review_node, bomProgressValues]
      · simp only [hroute, if_neg, Bool.not_eq_true]
        exact hmb
    set g := po_generator_node poSuccess AR.1 m.items with hgdef
    have hgt : taskProgressValues g.reports = [70] ∨ taskProgressValues g.reports = [70, 90] := by
      rw [hgdef]
      unfold po_generator_node
      by_cases hel : (m.items.filter isEligibleItem).isEmpty
      · left; simp only [hel, if_pos]; rfl
      · right; simp only [hel, if_neg, Bool.not_eq_true]; rfl
    have hgb : bomProgressValues g.reports = [70] ∨ bomProgressValues g.reports = [70, 90] := by
      rw [hgdef]
      unfold po_generator_node
      by_cases hel : (m.items.filter isEligibleItem).isEmpty
      · left; simp only [hel, if_pos]; rfl
      · right; simp only [hel, if_neg, Bool.not_eq_true]; rfl
    refine ⟨rfl, ?_, ?_⟩
    · show List.Chain' (· ≤ ·)
        (taskProgressValues (p.reports ++ AR.2.1 ++ g.reports ++ (completion_node g.state).2))
      rw [taskProgressValues_append, taskProgressValues_append, taskProgressValues_append,
        hpt, hARt]
      rcases hgt with hg | hg <;> rw [hg] <;> norm_num [completion_node, taskProgressValues,
        List.chain'_cons]
    · show List.Chain' (· ≤ ·)
        (bomProgressValues (p.reports ++ AR.2.1 ++ g.reports ++ (completion_node g.state).2))
      rw [bomProgressValues_append, bomProgressValues_append, bomProgressValues_append,
        hpb, hARb]
      rcases hgb with hg | hg <;> rw [hg] <;>
        refine
          (by simpa using
            chain_le_bom_stream p.items.length _ (by norm_num [completion_node,
              bomProgressValues, List.chain'_cons]))

/-- Witness for C9: a concrete successful run (a CSV parsed to zero items)
whose reported progress streams are non-decreasing. -/
theorem progress_monotonicity_witness :
    ({ state := { progress := 100, error := none, parsedItems := [],
                        matchedItems := [], unmatchedItems := [], reviewItems := [],
                        needsHumanReview := false, draftPos := [],
                        currentAgent := "matcher", currentStep := "Completed",
                        completed := true },
         reports := [Report.task 10 "Parsing BOM file",
                        Report.bom "parsing" 10 "Reading and parsing file",
                        Report.bomProgressOnly 25,
                        Report.task 25 "Parsed 0 items",
                        Report.bom "parsing" 25 "Extracted 0 line items",
                        Report.task 30 "Matching suppliers",
                        Report.bom "matching" 30 "Finding supplier matches",
                        Report.task 60 "Matched 0/0 items",
                        Report.bom "matching" 60 "Matched 0 items",
                        Report.task 70 "Generating purchase orders",
                        Report.bom "generating_pos" 70 "Creating purchase orders",
                        Report.taskStatusOnly "completed" "Completed",
                        Report.task 100 "Completed",
                        Report.bom "completed" 100 "Processing complete"],
         items := [], approvals := [] } : RunOutput).state.completed = true ∧
    List.Chain' (· ≤ ·) (taskProgressValues
      ({ state := { progress := 100, error := none, parsedItems := [],
                        matchedItems := [], unmatchedItems := [], reviewItems := [],
                        needsHumanReview := false, draftPos := [],
                        currentAgent := "matcher", currentStep := "Completed",
                        completed := true },
         reports := [Report.task 10 "Parsing BOM file",
                        Report.bom "parsing" 10 "Reading and parsing file",
                        Report.bomProgressOnly 25,
                        Report.task 25 "Parsed 0 items",
                        Report.bom "parsing" 25 "Extracted 0 line items",
                        Report.task 30 "Matching suppliers",
                        Report.bom "matching" 30 "Finding supplier matches",
                        Report.task 60 "Matched 0/0 items",
                        Report.bom "matching" 60 "Matched 0 items",
                        Report.task 70 "Generating purchase orders",
                        Report.bom "generating_pos" 70 "Creating purchase orders",
                        Report.taskStatusOnly "completed" "Completed",
                        Report.task 100 "Completed",
                        Report.bom "completed" 100 "Processing complete"],
         items := [], approvals := [] } : RunOutput).reports) ∧
    List.Chain' (· ≤ ·) (bomProgressValues
      ({ state := { progress := 100, error := none, parsedItems := [],
                        matchedItems := [], unmatchedItems := [], reviewItems := [],
                        needsHumanReview := false, draftPos := [],
                        currentAgent := "matcher", currentStep := "Completed",
                        completed := true },
         reports := [Report.task 10 "Parsing BOM file",
                        Report.bom "parsing" 10 "Reading and parsing file",
                        Report.bomProgressOnly 25,
                        Report.task 25 "Parsed 0 items",
                        Report.bom "parsing" 25 "Extracted 0 line items",
                        Report.task 30 "Matching suppliers",
                        Report.bom "matching" 30 "Finding supplier matches",
                        Report.task 60 "Matched 0/0 items",
                        Report.bom "matching" 60 "Matched 0 items",
                        Report.task 70 "Generating purchase orders",
                        Report.bom "generating_pos" 70 "Creating purchase orders",
                        Report.taskStatusOnly "completed" "Completed",
                        Report.task 100 "Completed",
                        Report.bom "completed" 100 "Processing complete"],
         items := [], approvals := [] } : RunOutput).reports) :=
  progress_monotonicity "csv" { success := true, error := none, items := [] }
    { success := true, error := none, items := [] }
    (fun _ => Except.ok []) (fun _ => Except.ok []) false 1 (fun _ => false) _ rfl rfl

end Procura
